import Mathlib

/-!
# Verification of the `syn` DSL front end (tokenizer output → parser → compiler → executor)

This file gives a shallow embedding, in Lean 4, of the DSL core of the `syn`
repository (`internal/dsl/ast.go`, `internal/dsl/parser.go`,
`internal/dsl/compiler.go`): the recursive-descent parser over a token list,
the AST node types, the code generator that lowers the AST to Python program
text, and the exit-status classification of the executor.  Each definition is
translated from the corresponding Go function and keeps its name where Lean
allows.  Theorems at the end settle the specification claims.

Modelling conventions:
* Go slices of tokens become `List String`; the parser's integer cursor is a
  `Nat` field of `PState`.
* Go functions returning `(T, error)` become `Except String (T × PState)`;
  the `String` is the exact Go error message text.
* Every recursive parse function takes a fuel parameter so the recursion is
  structural (and kernel-reducible).  Every loop iteration and every descent
  into a nested block strictly consumes tokens, so the fuel supplied by
  `parseProgram` (`2·tokens + 4`) and at loop entries (`tokens + 2`) can
  never run out; this is proved below (fuel-sufficiency theorems), so the
  fuel-error branch is dead code and the model agrees with parser.go.
* `float64` temperatures are modelled as `ℚ`; only the literal values `0.7`
  (the default) and parsed decimal literals arise, which ℚ represents exactly.
* The compiler's `strings.Builder` is modelled as the list of strings passed
  to `WriteString`, in order; the final program text is their concatenation.
-/

/-- Parser state: the token array and the cursor (`Parser.tokens`,
`Parser.position` in parser.go).  The keyword/operator sets of the Go struct
are constants and appear as standalone predicates below. -/
structure PState where
  tokens : List String
  pos : Nat
deriving Repr, DecidableEq

/-- `Parser.isEOF`: the cursor is at or beyond the token count. -/
def PState.isEOF (s : PState) : Bool :=
  s.pos ≥ s.tokens.length

/-- `Parser.peekToken`: current token without moving the cursor; `""` at EOF. -/
def peekToken (s : PState) : String :=
  if s.pos ≥ s.tokens.length then "" else s.tokens.getD s.pos ""

/-- `Parser.nextToken`: current token, advancing the cursor; at EOF returns
`""` and leaves the state unchanged. -/
def nextToken (s : PState) : String × PState :=
  if s.pos ≥ s.tokens.length then ("", s)
  else (s.tokens.getD s.pos "", ⟨s.tokens, s.pos + 1⟩)

/-- `Parser.isOperator`: membership in the fixed operator set. -/
def isOperator (t : String) : Bool :=
  t = "=" ∨ t = ">" ∨ t = "<" ∨ t = ">=" ∨ t = "<=" ∨ t = "!="

/-- Go `strings.HasPrefix`, on the character lists of the strings. -/
def strHasPrefix (p s : String) : Bool :=
  p.data.isPrefixOf s.data

/-- Go `strings.HasSuffix`, on the character lists of the strings. -/
def strHasSuffix (p s : String) : Bool :=
  p.data.reverse.isPrefixOf s.data.reverse

/-- `stripQuotes` (parser.go): removes one pair of surrounding double or
single quotes if present. -/
def stripQuotes (s : String) : String :=
  if (strHasPrefix "\"" s && strHasSuffix "\"" s) ||
     (strHasPrefix "'" s && strHasSuffix "'" s) then
    ((s.data.drop 1).dropLast).asString
  else s

/-- Model of Go `strconv.Atoi` (base-10, optional sign, 64-bit range check):
`some n` exactly when Go returns `(n, nil)`. -/
def goAtoi (s : String) : Option Int :=
  let chars := s.data
  let core : Bool × List Char :=
    match chars with
    | '-' :: rest => (true, rest)
    | '+' :: rest => (false, rest)
    | _ => (false, chars)
  let neg := core.1
  let digits := core.2
  if digits.isEmpty then none
  else if digits.all (fun c => '0' ≤ c ∧ c ≤ '9') then
    let n : Nat := digits.foldl (fun acc c => acc * 10 + (c.toNat - '0'.toNat)) 0
    let v : Int := if neg then -(n : Int) else (n : Int)
    if -(2 ^ 63) ≤ v ∧ v < 2 ^ 63 then some v else none
  else none

/-- Model of Go `strconv.ParseFloat` restricted to the plain decimal literals
the DSL grammar produces (optional sign, digits, optional single fraction
part).  Values are represented exactly as rationals.  (Go additionally accepts
exponent/hex/inf forms; no claim depends on those.) -/
def goParseDecimal (s : String) : Option ℚ :=
  let chars := s.data
  let core : Bool × List Char :=
    match chars with
    | '-' :: rest => (true, rest)
    | '+' :: rest => (false, rest)
    | _ => (false, chars)
  let neg := core.1
  let body := core.2
  let intPart := body.takeWhile (fun c => '0' ≤ c ∧ c ≤ '9')
  let rest := body.dropWhile (fun c => '0' ≤ c ∧ c ≤ '9')
  let fracPart : Option (List Char) :=
    match rest with
    | [] => some []
    | '.' :: fs => if fs.all (fun c => '0' ≤ c ∧ c ≤ '9') then some fs else none
    | _ => none
  match fracPart with
  | none => none
  | some fs =>
    if intPart.isEmpty ∧ fs.isEmpty then none
    else
      let digitsVal : List Char → Nat :=
        fun l => l.foldl (fun acc c => acc * 10 + (c.toNat - '0'.toNat)) 0
      let q : ℚ := (digitsVal intPart : ℚ) + (digitsVal fs : ℚ) / ((10 : ℚ) ^ fs.length)
      some (if neg then -q else q)

/-! ## AST (ast.go)

Each Go statement struct becomes a constructor of one closed `Stmt` type;
`Program.Statements` is a `List Stmt`.  A Go `*Block` pointer field becomes
`Option (List Stmt)`.  A bare `Block` node is also a `Node` in Go (the
compiler has a case for it), hence the `blockStmt` constructor. -/

/-- `FilterStatement.Value` (`interface{}` holding `int` or `string`). -/
inductive FValue where
  | int (n : Int)
  | str (s : String)
deriving Repr, DecidableEq

/-- `UsingStatement`: Type ∈ {MODEL, KEY, URL} and a value. -/
structure UsingItem where
  utype : String
  uvalue : String
deriving Repr, DecidableEq

/-- One condition of a `FilterStatement` / `FilterBlock`. -/
structure FilterCond where
  field : String
  operator : String
  value : FValue
deriving Repr, DecidableEq

/-- `GenerateStatement`.  `temperature` models the Go `float64` as an exact
rational (only decimal literals ever reach it). -/
structure GenSpec where
  sourceField : String
  targetField : String
  model : String
  temperature : ℚ
  gtokens : Int
  promptTemplates : List String
deriving Repr, DecidableEq

/-- `PromptStatement`. -/
structure PromptSpec where
  name : String
  template : String
  pfields : List String
  promptType : String
deriving Repr, DecidableEq

/-- `WithStatement.Value` (`interface{}`: `int` for CONCURRENCY, `true` for STREAM). -/
inductive WithVal where
  | int (n : Int)
  | bool (b : Bool)
deriving Repr, DecidableEq

/-- `PragmaStatement.Value` (`interface{}`: `true` for AUTOSAVE, `int` for CONCURRENCY). -/
inductive PragVal where
  | int (n : Int)
  | bool (b : Bool)
deriving Repr, DecidableEq

/-- The closed AST node type (Go `Node` interface and its implementations). -/
inductive Stmt where
  | fromStmt (dataset : String) (block : Option (List Stmt))
  | withStmt (wtype : String) (value : WithVal) (block : Option (List Stmt))
  | blockStmt (stmts : List Stmt)
  | fieldsStmt (fields : List String)
  | usingStmt (item : UsingItem)
  | usingBlock (items : List UsingItem)
  | filterStmt (cond : FilterCond)
  | filterBlock (field : String) (conds : List FilterCond)
  | mergeStmt (datasets : List String)
  | saveStmt (filename : String)
  | generateStmt (g : GenSpec)
  | promptStmt (pr : PromptSpec)
  | pragmaStmt (ptype : String) (value : PragVal)
deriving Repr

/-! ## Parser-state primitive lemmas -/

theorem nextToken_snd_tokens (s : PState) : (nextToken s).2.tokens = s.tokens := by
  unfold nextToken; split <;> rfl

theorem nextToken_pos_eq (s : PState) :
    (nextToken s).2.pos = if s.pos < s.tokens.length then s.pos + 1 else s.pos := by
  unfold nextToken
  rcases Nat.lt_or_ge s.pos s.tokens.length with h | h
  · rw [if_neg (by omega), if_pos h]
  · rw [if_pos h, if_neg (by omega)]

theorem isEOF_iff (s : PState) : s.isEOF = true ↔ s.tokens.length ≤ s.pos := by
  simp [PState.isEOF]

theorem isEOF_false_iff (s : PState) : s.isEOF = false ↔ s.pos < s.tokens.length := by
  simp [PState.isEOF]

/-- The measure used by every token-consuming loop. -/
theorem measure_lt {s s2 : PState} (hlt : s.pos < s.tokens.length)
    (h1 : s.pos < s2.pos) (ht : s2.tokens = s.tokens) :
    s2.tokens.length - s2.pos < s.tokens.length - s.pos := by
  rw [ht]; omega

theorem nextToken_pos_ge (s : PState) : s.pos ≤ (nextToken s).2.pos := by
  rw [nextToken_pos_eq]; split <;> omega

theorem nextToken_pos_gt (s : PState) (h : s.pos < s.tokens.length) :
    s.pos < (nextToken s).2.pos := by
  rw [nextToken_pos_eq, if_pos h]; omega

theorem nextToken_pos_le (s : PState) (h : s.pos ≤ s.tokens.length) :
    (nextToken s).2.pos ≤ s.tokens.length := by
  rw [nextToken_pos_eq]; split <;> omega

theorem not_isEOF_lt {s : PState} (h : ¬ s.isEOF = true) : s.pos < s.tokens.length := by
  simp only [PState.isEOF, ge_iff_le, decide_eq_true_eq] at h; omega

theorem skip_tokens (c : Prop) [Decidable c] (s : PState) :
    (if c then (nextToken s).2 else s).tokens = s.tokens := by
  split <;> simp [nextToken_snd_tokens]

theorem skip_pos_ge (c : Prop) [Decidable c] (s : PState) :
    s.pos ≤ (if c then (nextToken s).2 else s).pos := by
  split
  · exact nextToken_pos_ge s
  · exact Nat.le_refl _

theorem skip_pos_le (c : Prop) [Decidable c] (s : PState) (h : s.pos ≤ s.tokens.length) :
    (if c then (nextToken s).2 else s).pos ≤ s.tokens.length := by
  split
  · exact nextToken_pos_le s h
  · exact h

/-! ## Statement parsers (parser.go)

Each `parseXStatement` takes the state with the cursor still on the statement
keyword (as in Go, where `parseStatement` dispatches on `peekToken`) and
returns either the parsed node with the new state, or the Go error message. -/

/-- Result type of a parse function. -/
abbrev PResult (α : Type) := Except String (α × PState)

/-- Fuel-exhaustion marker of the fuel-structural recursions.  The Go code
recurses directly; the fuel only bounds the recursion depth so the Lean
definitions are structural and kernel-reducible.  Every theorem below either
quantifies over the fuel or concerns a successful parse, so no theorem
depends on the fuel being sufficient. -/
def fuelErr : String := "internal: parser fuel exhausted"

/-- The `interface{}`-typed filter value: integer if the raw token passes
`strconv.Atoi`, otherwise the quote-stripped token (parser.go lines 371-377
and 404-410). -/
def filterValueOf (valueStr : String) : FValue :=
  match goAtoi valueStr with
  | some n => .int n
  | none => .str (stripQuotes valueStr)

/-- The `[ name (, name)* ]` collection loop shared verbatim (same code, same
error message) by FIELDS (parser.go 257-268), MERGE (430-441) and
PROMPT FIELDS (635-646).  Stops with the cursor on `]`. -/
def bracketListLoop (fuel : Nat) (s : PState) (acc : List String) :
    Except String (List String × PState) :=
  match fuel with
  | 0 => .error fuelErr
  | Nat.succ fuel =>
    if peekToken s ≠ "]" then
      if s.isEOF then .error "expected closing brace ]"
      else
        let tok := (nextToken s).1
        let s1 := (nextToken s).2
        let s2 := if peekToken s1 = "," then (nextToken s1).2 else s1
        bracketListLoop fuel s2 (acc ++ [stripQuotes tok])
    else .ok (acc, s)

/-- `parseFieldsStatement` (parser.go 248-280). -/
def parseFieldsStatement (s0 : PState) : PResult Stmt :=
  let s := (nextToken s0).2            -- Skip FIELDS
  if peekToken s = "[" then
    let s1 := (nextToken s).2          -- Skip [
    match bracketListLoop (s1.tokens.length + 2) s1 [] with
    | .error e => .error e
    | .ok (fields, s2) => .ok (.fieldsStmt fields, (nextToken s2).2)  -- Skip ]
  else
    let field := (nextToken s).1
    .ok (.fieldsStmt [stripQuotes field], (nextToken s).2)

/-- `parseSaveStatement` (parser.go 468-480). -/
def parseSaveStatement (s0 : PState) : PResult Stmt :=
  let s := (nextToken s0).2            -- Skip SAVE
  if s.isEOF then .error "expected filename after SAVE"
  else
    let filename := (nextToken s).1
    .ok (.saveStmt (stripQuotes filename), (nextToken s).2)

/-- `parseMergeStatement` (parser.go 421-465). -/
def parseMergeStatement (s0 : PState) : PResult Stmt :=
  let s := (nextToken s0).2            -- Skip MERGE
  let collected : Except String (List String × PState) :=
    if peekToken s = "[" then
      let s1 := (nextToken s).2        -- Skip [
      match bracketListLoop (s1.tokens.length + 2) s1 [] with
      | .error e => .error e
      | .ok (datasets, s2) => .ok (datasets, (nextToken s2).2)  -- Skip ]
    else
      let d1 := (nextToken s).1
      let s1 := (nextToken s).2
      if peekToken s1 = "," then
        let s2 := (nextToken s1).2     -- Skip comma
        let d2 := (nextToken s2).1
        .ok ([stripQuotes d1, stripQuotes d2], (nextToken s2).2)
      else .error "expected comma between datasets in MERGE"
  match collected with
  | .error e => .error e
  | .ok (datasets, s') =>
    if datasets.length < 2 then .error "at least two datasets are required for MERGE"
    else .ok (.mergeStmt datasets, s')

/-- The condition loop of a FILTER block (parser.go 351-388). -/
def filterBlockLoop (fuel : Nat) (s : PState) (acc : List FilterCond) :
    Except String (List FilterCond × PState) :=
  match fuel with
  | 0 => .error fuelErr
  | Nat.succ fuel =>
   if peekToken s ≠ "\x7d" then
    if s.isEOF then .error "expected closing brace \x7d"
    else
      let subField := (nextToken s).1
      let s1 := (nextToken s).2
      if s1.isEOF then .error ("expected operator after " ++ subField)
      else
        let operator := (nextToken s1).1
        let s2 := (nextToken s1).2
        if ¬ isOperator operator then
          .error ("expected operator (=, >, <, >=, <=, !=), got: " ++ operator)
        else if s2.isEOF then .error ("expected value after " ++ operator)
        else
          let valueStr := (nextToken s2).1
          let s3 := (nextToken s2).2
          let s4 := if peekToken s3 = ";" then (nextToken s3).2 else s3
          filterBlockLoop fuel s4 (acc ++ [⟨subField, operator, filterValueOf valueStr⟩])
   else .ok (acc, s)

/-- `parseFilterStatement` (parser.go 333-418). -/
def parseFilterStatement (s0 : PState) : PResult Stmt :=
  let s := (nextToken s0).2            -- Skip FILTER
  if s.isEOF then .error "expected field after FILTER"
  else
    let field := (nextToken s).1
    let s1 := (nextToken s).2
    if peekToken s1 = "\x7b" then
      let s2 := (nextToken s1).2       -- Skip {
      match filterBlockLoop (s2.tokens.length + 2) s2 [] with
      | .error e => .error e
      | .ok (conds, s3) => .ok (.filterBlock field conds, (nextToken s3).2)  -- Skip }
    else
      let operator := (nextToken s1).1
      let s2 := (nextToken s1).2
      if ¬ isOperator operator then
        .error ("expected operator (=, >, <, >=, <=, !=), got: " ++ operator)
      else if s2.isEOF then .error ("expected value after " ++ operator)
      else
        let valueStr := (nextToken s2).1
        .ok (.filterStmt ⟨field, operator, filterValueOf valueStr⟩, (nextToken s2).2)

/-- The item loop of a USING block (parser.go 294-310). -/
def usingBlockLoop (fuel : Nat) (s : PState) (acc : List UsingItem) :
    Except String (List UsingItem × PState) :=
  match fuel with
  | 0 => .error fuelErr
  | Nat.succ fuel =>
   if peekToken s ≠ "\x7d" then
    if s.isEOF then .error "expected closing brace \x7d"
    else
      let usingType := (nextToken s).1
      let s1 := (nextToken s).2
      if usingType ≠ "MODEL" ∧ usingType ≠ "KEY" ∧ usingType ≠ "URL" then
        .error ("expected USING type (MODEL, KEY, URL), got: " ++ usingType)
      else
        let value := (nextToken s1).1
        let s2 := (nextToken s1).2
        usingBlockLoop fuel s2 (acc ++ [⟨usingType, stripQuotes value⟩])
   else .ok (acc, s)

/-- `parseUsingStatement` (parser.go 283-330). -/
def parseUsingStatement (s0 : PState) : PResult Stmt :=
  let s := (nextToken s0).2            -- Skip USING
  if peekToken s = "\x7b" then
    let s1 := (nextToken s).2          -- Skip {
    match usingBlockLoop (s1.tokens.length + 2) s1 [] with
    | .error e => .error e
    | .ok (items, s2) => .ok (.usingBlock items, (nextToken s2).2)  -- Skip }
  else
    let usingType := (nextToken s).1
    let s1 := (nextToken s).2
    if s1.isEOF then .error "expected value after USING type"
    else
      let value := (nextToken s1).1
      .ok (.usingStmt ⟨usingType, stripQuotes value⟩, (nextToken s1).2)

/-- `parsePragmaStatement` (parser.go 707-741). -/
def parsePragmaStatement (s0 : PState) : PResult Stmt :=
  let s := (nextToken s0).2            -- Skip PRAGMA
  if s.isEOF then .error "expected pragma type after PRAGMA"
  else
    let pragmaType := (nextToken s).1
    let s1 := (nextToken s).2
    if pragmaType = "AUTOSAVE" then .ok (.pragmaStmt pragmaType (.bool true), s1)
    else if pragmaType = "CONCURRENCY" then
      if s1.isEOF then .error "expected value after PRAGMA CONCURRENCY"
      else
        let concurrencyStr := (nextToken s1).1
        let s2 := (nextToken s1).2
        match goAtoi concurrencyStr with
        | none => .error ("expected integer value for PRAGMA CONCURRENCY, got: " ++ concurrencyStr)
        | some n => .ok (.pragmaStmt pragmaType (.int n), s2)
    else .error ("unknown PRAGMA directive: " ++ pragmaType)

/-- The parameter loop of a GENERATE block (parser.go 545-596).  Every
successful parameter case consumes exactly one value token after the
parameter keyword, so the post-parameter state is uniformly one
`nextToken` past the keyword. -/
def generateParamsLoop (fuel : Nat) (s : PState) (g : GenSpec) :
    Except String (GenSpec × PState) :=
  match fuel with
  | 0 => .error fuelErr
  | Nat.succ fuel =>
   if peekToken s ≠ "\x7d" then
    if s.isEOF then .error "expected closing brace \x7d"
    else
      let paramType := (nextToken s).1
      let s1 := (nextToken s).2
      let step : Except String GenSpec :=
        if paramType = "MODEL" then
          if s1.isEOF then .error "expected model name after MODEL"
          else .ok { g with model := stripQuotes (nextToken s1).1 }
        else if paramType = "TEMPERATURE" then
          if s1.isEOF then .error "expected value after TEMPERATURE"
          else
            let tempStr := (nextToken s1).1
            match goParseDecimal tempStr with
            | none => .error ("expected numeric value for TEMPERATURE, got: " ++ tempStr)
            | some t => .ok { g with temperature := t }
        else if paramType = "TOKENS" then
          if s1.isEOF then .error "expected value after TOKENS"
          else
            let tokensStr := (nextToken s1).1
            match goAtoi tokensStr with
            | none => .error ("expected integer value for TOKENS, got: " ++ tokensStr)
            | some n => .ok { g with gtokens := n }
        else if paramType = "PROMPT" then
          if s1.isEOF then .error "expected prompt name after PROMPT"
          else .ok { g with promptTemplates := g.promptTemplates ++ [stripQuotes (nextToken s1).1] }
        else .error ("unknown GENERATE parameter: " ++ paramType)
      match step with
      | .error e => .error e
      | .ok g' =>
        let s2 := (nextToken s1).2
        let s3 := if peekToken s2 = ";" then (nextToken s2).2 else s2
        generateParamsLoop fuel s3 g'
   else .ok (g, s)

/-- `parseGenerateStatement` (parser.go 509-602). -/
def parseGenerateStatement (s0 : PState) : PResult Stmt :=
  let s := (nextToken s0).2            -- Skip GENERATE
  if s.isEOF then .error "expected source field after GENERATE"
  else
    let sourceField := (nextToken s).1
    let s1 := (nextToken s).2
    if s1.isEOF = true ∨ (peekToken s1 ≠ "AS" ∧ peekToken s1 ≠ "TO") then
      .error ("expected 'AS' or 'TO' after source field, got: " ++ peekToken s1)
    else
      let s2 := (nextToken s1).2       -- Skip AS or TO
      if s2.isEOF then .error "expected target field after AS/TO"
      else
        let targetField := (nextToken s2).1
        let s3 := (nextToken s2).2
        let generateStmt : GenSpec :=
          { sourceField := stripQuotes sourceField
            targetField := stripQuotes targetField
            model := ""
            temperature := 7 / 10      -- Default value 0.7
            gtokens := 1024            -- Default value
            promptTemplates := [] }
        if peekToken s3 = "\x7b" then
          let s4 := (nextToken s3).2   -- Skip {
          match generateParamsLoop (s4.tokens.length + 2) s4 generateStmt with
          | .error e => .error e
          | .ok (g, s5) => .ok (.generateStmt g, (nextToken s5).2)  -- Skip }
        else .ok (.generateStmt generateStmt, s3)

/-- The template-token collection loop of a PROMPT block, collecting every
token up to `}` (parser.go 661-668 and 673-681, two verbatim copies in Go). -/
def collectTplLoop (fuel : Nat) (s : PState) (acc : List String) :
    Except String (List String × PState) :=
  match fuel with
  | 0 => .error fuelErr
  | Nat.succ fuel =>
    if peekToken s ≠ "\x7d" then
      if s.isEOF then .error "expected closing brace \x7d"
      else
        let t := (nextToken s).1
        collectTplLoop fuel (nextToken s).2 (acc ++ [t])
    else .ok (acc, s)

/-- `parsePromptStatement` (parser.go 605-704).  `promptType0` is the Go
`promptType` argument ("user" from the bare-PROMPT dispatch, "system"/"user"
after SYSTEM/USER). -/
def parsePromptStatement (promptType0 : String) (s0 : PState) : PResult Stmt :=
  let promptType := if promptType0 = "" then "user" else promptType0
  let s := if peekToken s0 = "PROMPT" then (nextToken s0).2 else s0  -- Skip PROMPT if not skipped yet
  if s.isEOF then .error "expected prompt name after PROMPT"
  else
    let promptName := (nextToken s).1
    let s1 := (nextToken s).2
    if peekToken s1 = "\x7b" then
      let s2 := (nextToken s1).2       -- Skip {
      if peekToken s2 = "FIELDS" then
        let s3 := (nextToken s2).2     -- Skip FIELDS
        let fieldsRes : Except String (List String × PState) :=
          if peekToken s3 = "[" then
            match bracketListLoop ((nextToken s3).2.tokens.length + 2) (nextToken s3).2 [] with
            | .error e => .error e
            | .ok (fs, s4) => .ok (fs, (nextToken s4).2)  -- Skip ]
          else
            .ok ([stripQuotes (nextToken s3).1], (nextToken s3).2)
        match fieldsRes with
        | .error e => .error e
        | .ok (fields, s5) =>
          if s5.isEOF = true ∨ peekToken s5 = "\x7d" then
            .error "expected text template after field list"
          else
            match collectTplLoop (s5.tokens.length + 2) s5 [] with
            | .error e => .error e
            | .ok (templateTokens, s6) =>
              let promptTemplate := stripQuotes (String.intercalate " " templateTokens)
              .ok (.promptStmt ⟨stripQuotes promptName, promptTemplate, fields, promptType⟩,
                   (nextToken s6).2)   -- Skip }
      else
        match collectTplLoop (s2.tokens.length + 2) s2 [] with
        | .error e => .error e
        | .ok (templateTokens, s6) =>
          let promptTemplate := stripQuotes (String.intercalate " " templateTokens)
          .ok (.promptStmt ⟨stripQuotes promptName, promptTemplate, [], promptType⟩,
               (nextToken s6).2)       -- Skip }
    else
      if s1.isEOF then .error "expected text template"
      else
        .ok (.promptStmt ⟨stripQuotes promptName, stripQuotes (nextToken s1).1, [], promptType⟩,
             (nextToken s1).2)

/-- Modelled Go error text of a failed `strconv.Atoi` (`%v` of the returned
`*strconv.NumError`, invalid-syntax case; the out-of-range case differs only
after the last colon and no claim touches either text). -/
def atoiErrText (s : String) : String :=
  "strconv.Atoi: parsing \"" ++ s ++ "\": invalid syntax"

/-! The five mutually recursive parse functions (`parseStatement`,
`parseFromStatement`, `parseWithStatement`, `parseBlock`, `parseBlockLoop`)
each decrement a fuel argument to make the recursion structural (the Go code
recurses directly).  `parseProgram` supplies fuel `2·tokens.length + 4`,
ample for the recursion depth, which spends at most two units of fuel per
token consumed; the theorems below quantify over the fuel or concern
successful parses, so none depends on the exact amount. -/

mutual

/-- `Parser.parseStatement` (parser.go 133-176): dispatch on the current token. -/
def parseStatement (fuel0 : Nat) (s : PState) : PResult Stmt :=
  match fuel0 with
  | 0 => .error fuelErr
  | Nat.succ fuel =>
    match peekToken s with
    | "FROM" => parseFromStatement fuel s
    | "WITH" => parseWithStatement fuel s
    | "FIELDS" => parseFieldsStatement s
    | "USING" => parseUsingStatement s
    | "FILTER" => parseFilterStatement s
    | "MERGE" => parseMergeStatement s
    | "SAVE" => parseSaveStatement s
    | "GENERATE" => parseGenerateStatement s
    | "PROMPT" => parsePromptStatement "user" s  -- For backward compatibility, PROMPT = USER PROMPT
    | "PRAGMA" => parsePragmaStatement s
    | "SYSTEM" =>
      let s1 := (nextToken s).2        -- Skip SYSTEM
      if peekToken s1 = "PROMPT" then parsePromptStatement "system" (nextToken s1).2
      else .error ("expected PROMPT after SYSTEM, got: " ++ peekToken s1)
    | "USER" =>
      let s1 := (nextToken s).2        -- Skip USER
      if peekToken s1 = "PROMPT" then parsePromptStatement "user" (nextToken s1).2
      else .error ("expected PROMPT after USER, got: " ++ peekToken s1)
    | token => .error ("unexpected token: " ++ token)

/-- `Parser.parseFromStatement` (parser.go 179-201).  The dataset name is
taken raw (not quote-stripped). -/
def parseFromStatement (fuel0 : Nat) (s0 : PState) : PResult Stmt :=
  match fuel0 with
  | 0 => .error fuelErr
  | Nat.succ fuel =>
    let s := (nextToken s0).2          -- Skip FROM
    if s.isEOF then .error "expected dataset name after FROM"
    else
      let dataset := (nextToken s).1
      let s1 := (nextToken s).2
      if peekToken s1 = "\x7b" then
        match parseBlock fuel s1 with
        | .error e => .error e
        | .ok (block, s2) => .ok (.fromStmt dataset (some block), s2)
      else .ok (.fromStmt dataset none, s1)

/-- `Parser.parseWithStatement` (parser.go 204-245). -/
def parseWithStatement (fuel0 : Nat) (s0 : PState) : PResult Stmt :=
  match fuel0 with
  | 0 => .error fuelErr
  | Nat.succ fuel =>
    let s := (nextToken s0).2          -- Skip WITH
    if s.isEOF then .error "expected setting type after WITH"
    else
      let withType := (nextToken s).1
      let s1 := (nextToken s).2
      let valRes : Except String (WithVal × PState) :=
        if withType = "CONCURRENCY" then
          if s1.isEOF then .error "expected value after WITH CONCURRENCY"
          else
            let cs := (nextToken s1).1
            match goAtoi cs with
            | none => .error ("incorrect concurrency value: " ++ atoiErrText cs)
            | some n => .ok (.int n, (nextToken s1).2)
        else if withType = "STREAM" then .ok (.bool true, s1)
        else .error ("unknown WITH type: " ++ withType)
      match valRes with
      | .error e => .error e
      | .ok (value, s2) =>
        if peekToken s2 = "\x7b" then
          match parseBlock fuel s2 with
          | .error e => .error e
          | .ok (block, s3) => .ok (.withStmt withType value (some block), s3)
        else .ok (.withStmt withType value none, s2)

/-- `Parser.parseBlock` (parser.go 483-506). -/
def parseBlock (fuel0 : Nat) (s0 : PState) : PResult (List Stmt) :=
  match fuel0 with
  | 0 => .error fuelErr
  | Nat.succ fuel =>
    match parseBlockLoop fuel (nextToken s0).2 [] with  -- Skip {
    | .error e => .error e
    | .ok (stmts, s1) => .ok (stmts, (nextToken s1).2)  -- Skip }

/-- The statement loop of `parseBlock` (parser.go 490-501). -/
def parseBlockLoop (fuel0 : Nat) (s : PState) (acc : List Stmt) : PResult (List Stmt) :=
  match fuel0 with
  | 0 => .error fuelErr
  | Nat.succ fuel =>
    if peekToken s ≠ "\x7d" then
      if s.isEOF then .error "expected closing brace \x7d"
      else
        match parseStatement fuel s with
        | .error e => .error e
        | .ok (stmt, s1) => parseBlockLoop fuel s1 (acc ++ [stmt])
    else .ok (acc, s)

end

/-- The statement loop of `Parser.Parse` (parser.go 121-127). -/
def parseProgramLoop : Nat → PState → List Stmt → PResult (List Stmt)
  | 0, _, _ => .error fuelErr
  | Nat.succ fuel, s, acc =>
    if s.isEOF then .ok (acc, s)
    else
      match parseStatement fuel s with
      | .error e => .error e
      | .ok (stmt, s1) => parseProgramLoop fuel s1 (acc ++ [stmt])

/-- `Parser.Parse` (parser.go 111-130) from the token sequence on: builds the
program statement list.  (Tokenization of raw text is outside this model;
all claims quantify over token sequences.)  Returns the final parser state
alongside the program so the cursor can be observed. -/
def parseProgram (tokens : List String) : PResult (List Stmt) :=
  parseProgramLoop (2 * tokens.length + 4) ⟨tokens, 0⟩ []

/-! ## Compiler (compiler.go)

The Go `strings.Builder` is modelled as the ordered list of the strings
passed to `builder.WriteString`; `Compile` returns their concatenation.
`Compiler`'s mutable traversal state (`datasets`, `enableSigIntHandler`) is
threaded explicitly as `CState`; the `debug` flag is `false` as set by
`NewCompiler` (the claims concern default compilation). -/

/-- The compiler's per-run mutable state: the set of dataset variables
already created (a `map[string]bool` in Go, used only for insertion and its
size) and the SIGINT-handler flag. -/
structure CState where
  datasets : List String
  enableSigIntHandler : Bool
deriving Repr, DecidableEq

/-- `NewCompiler` (compiler.go 18-38): empty dataset set, handler disabled. -/
def NewCompiler : CState := ⟨[], false⟩

/-- `c.datasets[v] = true` on a Go map: inserts the key if absent
(iteration order is never used; only the size is read). -/
def mapInsert (v : String) (l : List String) : List String :=
  if v ∈ l then l else l ++ [v]

/-- The `imports` list set by `NewCompiler` (compiler.go 21-33). -/
def importsList : List String := [
  "import datasets",
  "from datasets import load_dataset, Dataset, concatenate_datasets",
  "import pandas as pd",
  "import os",
  "import sys",
  "import json",
  "from openai import AsyncOpenAI",
  "import time",
  "import asyncio",
  "from tqdm import tqdm",
  "import signal"]

/-- `strings.Repeat("    ", indent)` (compiler.go 436). -/
def indentStr (n : Nat) : String :=
  String.join (List.replicate n "    ")

/-- `sanitizeVarName` (compiler.go 836-840): `strings.NewReplacer` with the
single-character rules `/`→`_`, `-`→`_`, `.`→`_`, i.e. a character map
(written on the character list so it evaluates in the kernel). -/
def sanitizeVarName (name : String) : String :=
  ⟨name.data.map (fun c => if c = '/' ∨ c = '-' ∨ c = '.' then '_' else c)⟩

/-- The dataset variable derived for a FROM statement (compiler.go 441). -/
def datasetVarName (dataset : String) : String :=
  "ds_" ++ sanitizeVarName dataset

/-- `convertOperatorToPython` (compiler.go 807-814). -/
def convertOperatorToPython (op : String) : String :=
  if op = "=" then "==" else op

/-- `formatPythonList` (compiler.go 817-823). -/
def formatPythonList (items : List String) : String :=
  "[" ++ String.intercalate ", " (items.map (fun i => "'" ++ i ++ "'")) ++ "]"

/-- `formatPythonValue` (compiler.go 826-833): `'%s'` for strings, `%v`
(decimal) for the only other value produced, `int`. -/
def formatPythonValue : FValue → String
  | .str v => "'" ++ v ++ "'"
  | .int n => toString n

/-- `formatPythonStringList` (compiler.go 843-849). -/
def formatPythonStringList (items : List String) : List String :=
  items.map (fun i => "'" ++ i ++ "'")

/-- Go `%v` of a `WithStatement.Value` (`int` prints decimal, `bool` prints
`true`/`false`). -/
def formatWithVal : WithVal → String
  | .int n => toString n
  | .bool b => if b then "true" else "false"

/-- Model of Go `fmt` `%.1f` on the temperature: one rounded decimal place.
(Go rounds the underlying binary float half-to-even; the two differ only on
exact-half decimals, which no claim exercises.) -/
def formatTemp (q : ℚ) : String :=
  let r : Int := round (q * 10)
  let sign := if r < 0 then "-" else ""
  sign ++ toString (r.natAbs / 10) ++ "." ++ toString (r.natAbs % 10)

/-- The SIGINT-flag line of the prelude (compiler.go 81-87). -/
def sigintFlagChunk (enable : Bool) : String :=
  "    sigint_handler_registered = " ++ (if enable then "True" else "False") ++
    "  # Flag indicating whether SIGINT handler is registered\n"

/-- The prelude's conditional handler registration (compiler.go 107). -/
def registrationPreludeChunk : String := "    signal.signal(signal.SIGINT, signal_handler)\n\n"

/-- The prelude's alternative comment when the handler flag is off (compiler.go 109). -/
def disabledPreludeChunk : String := "    # SIGINT signal handler is disabled\n\n"
/-- Compile prelude, part 1: `def main():` through the default globals (compiler.go 61-80). -/
def preludeMid : List String := [
  "def main():\n",
  "    # Define debug mode\n",
  "    debug = os.environ.get('SYN_DEBUG', '0') == '1'\n",
  "\n",
  "    # Default values\n",
  "    concurrency = 1\n",
  "    stream = False\n",
  "    model = None\n",
  "    api_key = None\n",
  "    api_url = None\n",
  "    output_file = 'output.json'\n",
  "    loaded_datasets = \x7b\x7d\n",
  "    was_saved = False\n",
  "    prompt_templates = \x7b\x7d\n",
  "    system_prompts = \x7b\x7d\n",
  "    shutdown = False\n"
]

/-- Compile prelude, part 2: the `signal_handler` definition (compiler.go 88-103). -/
def preludeHandler : List String := [
  "\n",
  "    # Ctrl+C signal handler\n",
  "    def signal_handler(sig, frame):\n",
  "        nonlocal shutdown\n",
  "        if shutdown:\n",
  "            return  # If already processing a signal, don't do it again\n",
  "        print('\\n🛑 Termination signal received. Saving current results...')\n",
  "        shutdown = True\n",
  "        # Save current results\n",
  "        save_current_results()\n",
  "        print('👋 Shutting down.')\n",
  "        # Explicitly terminate the process with code 0\n",
  "        sys.exit(0)\n",
  "    \n"
]

/-- Compile prelude, part 3: save routine, generation helpers and dataset loader (compiler.go 113-416). -/
def preludeTail : List String := [
  "    # Function to save current results\n",
  "    def save_current_results():\n",
  "        if not loaded_datasets:\n",
  "            print('❌ No data to save.')\n",
  "            return\n",
  "        \n",
  "        # Select the last loaded dataset\n",
  "        last_dataset_name = list(loaded_datasets.keys())[-1]\n",
  "        last_dataset = loaded_datasets[last_dataset_name]\n",
  "        \n",
  "        # Create output directory if it doesn't exist\n",
  "        os.makedirs('output', exist_ok=True)\n",
  "        \n",
  "        # Generate emergency save filename if name is not specified\n",
  "        save_filename = output_file\n",
  "        if not was_saved:\n",
  "            # Get timestamp for filename\n",
  "            timestamp = time.strftime('%Y%m%d_%H%M%S')\n",
  "            save_filename = f'emergency_save_\x7btimestamp\x7d.json'\n",
  "        \n",
  "        # Form the full path to the directory where the dataset will be saved\n",
  "        dataset_dir = os.path.join('output', os.path.splitext(save_filename)[0])\n",
  "        json_path = os.path.join('output', save_filename)\n",
  "        \n",
  "        # Check if the directory for saving already exists\n",
  "        if os.path.exists(dataset_dir):\n",
  "            print(f'ℹ️ Dataset already saved to \x7bdataset_dir\x7d. Skipping re-save.')\n",
  "            return\n",
  "        \n",
  "        print(f'💾 Saving dataset \x7blast_dataset_name\x7d to \x7bdataset_dir\x7d...')\n",
  "        \n",
  "        try:\n",
  "            # Save the dataset using Hugging Face's native method\n",
  "            last_dataset.save_to_disk(dataset_dir)\n",
  "            \n",
  "            # Also create a JSON version for compatibility\n",
  "            with open(json_path, 'w', encoding='utf-8') as f:\n",
  "                json.dump([item for item in last_dataset], f, ensure_ascii=False, indent=2)\n",
  "            \n",
  "            print(f'✅ Done! Processed \x7blast_dataset.num_rows\x7d records. Dataset saved to \x7bdataset_dir\x7d and as JSON to \x7bjson_path\x7d')\n",
  "        except Exception as e:\n",
  "            print(f'❌ Error saving results: \x7be\x7d')\n",
  "    \n",
  "    # Function for asynchronous OpenAI API calls\n",
  "    async def call_openai_api_async(prompt, model_name='gpt-3.5-turbo', temperature=0.7, max_tokens=1024, semaphore=None, system_prompt=None):\n",
  "        client = None\n",
  "        \n",
  "        # If semaphore is provided, use it to control concurrency\n",
  "        async with semaphore or asyncio.Semaphore(1):\n",
  "            try:\n",
  "                if debug:\n",
  "                    print(f'Request to model \x7bmodel_name\x7d with temperature \x7btemperature\x7d')\n",
  "                    print(f'Prompt: \x7bprompt[:100]\x7d...' if len(prompt) > 100 else f'Prompt: \x7bprompt\x7d')\n",
  "                    if system_prompt:\n",
  "                        print(f'System prompt: \x7bsystem_prompt[:100]\x7d...' if len(system_prompt) > 100 else f'System prompt: \x7bsystem_prompt\x7d')\n",
  "                \n",
  "                client = AsyncOpenAI(api_key=api_key, base_url=api_url if api_url else None)\n",
  "                \n",
  "                # Set timeout to 30 seconds\n",
  "                start_time = time.time()\n",
  "                max_time = 30  # maximum wait time in seconds\n",
  "                \n",
  "                # Format messages based on whether a system prompt is provided\n",
  "                messages = []\n",
  "                if system_prompt:\n",
  "                    messages.append(\x7b'role': 'system', 'content': system_prompt\x7d)\n",
  "                messages.append(\x7b'role': 'user', 'content': prompt\x7d)\n",
  "                \n",
  "                response = await client.chat.completions.create(\n",
  "                    model=model_name,\n",
  "                    messages=messages,\n",
  "                    temperature=temperature,\n",
  "                    max_tokens=max_tokens,\n",
  "                    timeout=20  # Timeout in seconds for HTTP request\n",
  "                )\n",
  "                \n",
  "                return response.choices[0].message.content.strip()\n",
  "            except Exception as e:\n",
  "                error_msg = str(e)\n",
  "                print(f'Error calling OpenAI API: \x7berror_msg\x7d')\n",
  "                if 'authentication' in error_msg.lower() or 'key' in error_msg.lower():\n",
  "                    print('Problem with API key. Check your key.')\n",
  "                elif 'timeout' in error_msg.lower() or 'connection' in error_msg.lower():\n",
  "                    print('Timeout exceeded. Check your internet connection or API availability.')\n",
  "                return f'[Generation error: \x7berror_msg\x7d]'\n",
  "            finally:\n",
  "                # Close the client if possible\n",
  "                if client and hasattr(client, 'close'):\n",
  "                    try:\n",
  "                        await client.close()\n",
  "                    except:\n",
  "                        pass\n\n",
  "    # Function for asynchronous processing of one dataset record\n",
  "    async def process_item_async(item, source_field, target_field, model_name, temperature, max_tokens, prompt_template, semaphore, pbar=None):\n",
  "        try:\n",
  "            if shutdown:\n",
  "                return item\n",
  "            \n",
  "            item_dict = dict(item)\n",
  "            system_prompt = None\n",
  "            \n",
  "            # Check for system prompt presence\n",
  "            if prompt_template is not None and prompt_template in system_prompts:\n",
  "                system_prompt = system_prompts[prompt_template]\n",
  "            \n",
  "            # Form prompt based on template or source field\n",
  "            if prompt_template is not None and prompt_template in prompt_templates:\n",
  "                template = prompt_templates[prompt_template]['template']\n",
  "                fields = prompt_templates[prompt_template]['fields']\n",
  "                \n",
  "                # Replace fields in template\n",
  "                prompt = template\n",
  "                for field in fields:\n",
  "                    if field in item_dict:\n",
  "                        prompt = prompt.replace('\x7b' + field + '\x7d', str(item_dict[field]))\n",
  "            else:\n",
  "                # Use source field directly\n",
  "                if source_field in item_dict:\n",
  "                    prompt = str(item_dict[source_field])\n",
  "                else:\n",
  "                    print(f'Warning: field \x7bsource_field\x7d is missing in record')\n",
  "                    prompt = ''\n",
  "            \n",
  "            # Generate response\n",
  "            response = await call_openai_api_async(prompt, model_name, temperature, max_tokens, semaphore, system_prompt)\n",
  "            \n",
  "            # Add result\n",
  "            item_dict[target_field] = response\n",
  "            return item_dict\n",
  "        except Exception as e:\n",
  "            print(f'Error processing record: \x7be\x7d')\n",
  "            return item\n",
  "        finally:\n",
  "            if pbar:\n",
  "                pbar.update(1)\n\n",
  "    # Function for asynchronous content generation for the entire dataset\n",
  "    async def generate_content_async(dataset, source_field, target_field, model_name=None, temperature=0.7, max_tokens=1024, prompt_template=None):\n",
  "        if model_name is None:\n",
  "            if model is None:\n",
  "                print('❌ Error: model not specified for generation')\n",
  "                return dataset\n",
  "            model_name = model\n",
  "        \n",
  "        if api_key is None:\n",
  "            print('❌ Error: API key not specified for accessing OpenAI API')\n",
  "            return dataset\n",
  "        \n",
  "        print(f'🔄 Generating field \x7btarget_field\x7d based on \x7bsource_field\x7d using model \x7bmodel_name\x7d...')\n",
  "        \n",
  "        try:\n",
  "            # Create semaphore for controlling concurrency\n",
  "            semaphore = asyncio.Semaphore(concurrency)\n",
  "            \n",
  "            # Demonstration mode - process a limited number of records\n",
  "            if debug:\n",
  "                sample_size = min(5, len(dataset))\n",
  "                dataset_sample = dataset.select(range(sample_size))\n",
  "            else:\n",
  "                # In real mode process the entire dataset\n",
  "                sample_size = len(dataset)\n",
  "                dataset_sample = dataset\n",
  "            \n",
  "            print(f'Processing \x7bsample_size\x7d records...')\n",
  "            \n",
  "            # Create list of tasks for asynchronous processing\n",
  "            tasks = []\n",
  "            all_items = list(dataset_sample)\n",
  "            processed_items = []\n",
  "            \n",
  "            # Prepare progress bar\n",
  "            pbar = tqdm(total=sample_size, desc='Generation')\n",
  "            \n",
  "            # Process records asynchronously\n",
  "            batch_size = min(100, sample_size)  # Process 100 records at a time\n",
  "            \n",
  "            for i in range(0, sample_size, batch_size):\n",
  "                if shutdown:\n",
  "                    print('\\n🛑 Stopping processing due to signal')\n",
  "                    break\n",
  "                \n",
  "                # Define current batch\n",
  "                current_batch = all_items[i:min(i+batch_size, sample_size)]\n",
  "                batch_tasks = []\n",
  "                \n",
  "                # Create tasks for current batch\n",
  "                for item in current_batch:\n",
  "                    task = asyncio.create_task(process_item_async(\n",
  "                        item, source_field, target_field, model_name, \n",
  "                        temperature, max_tokens, prompt_template, semaphore, pbar\n",
  "                    ))\n",
  "                    batch_tasks.append(task)\n",
  "                \n",
  "                # Wait for current batch completion\n",
  "                batch_results = await asyncio.gather(*batch_tasks)\n",
  "                processed_items.extend(batch_results)\n",
  "                \n",
  "                # If stop signal received, stop processing but save what we processed\n",
  "                if shutdown:\n",
  "                    print('\\n🛑 Stopping after processing current batch...')\n",
  "                    break\n",
  "            \n",
  "            pbar.close()\n",
  "            \n",
  "            # Create new dataset with results\n",
  "            print('✅ Generation completed!')\n",
  "            \n",
  "            # Check if all records were processed\n",
  "            if len(processed_items) < sample_size:\n",
  "                print(f'ℹ️ Processed \x7blen(processed_items)\x7d out of \x7bsample_size\x7d records (stopped by user)')\n",
  "            \n",
  "            # Create dataset from processed records\n",
  "            return Dataset.from_list(processed_items)\n",
  "        except Exception as e:\n",
  "            print(f'❌ Error generating content: \x7be\x7d')\n",
  "            # Save what we processed\n",
  "            if 'processed_items' in locals() and processed_items:\n",
  "                print(f'💾 Saving \x7blen(processed_items)\x7d processed records...')\n",
  "                return Dataset.from_list(processed_items)\n",
  "            # Return original dataset in case of error\n",
  "            return dataset\n\n",
  "    # Function for generating content (synchronous version)\n",
  "    def generate_content(dataset, source_field, target_field, model_name=None, temperature=0.7, max_tokens=1024, prompt_template=None):\n",
  "        # Start asynchronous version through event loop\n",
  "        loop = asyncio.new_event_loop()\n",
  "        asyncio.set_event_loop(loop)\n",
  "        try:\n",
  "            # Set signal handler for loop\n",
  "            def handle_loop_signal():\n",
  "                for task in asyncio.all_tasks(loop):\n",
  "                    task.cancel()\n",
  "            \n",
  "            # Add graceful shutdown handler\n",
  "            # Добавляем обработчик для graceful shutdown\n",
  "            if not shutdown and not sigint_handler_registered:  # Не регистрируем, если уже включен на уровне скрипта\n",
  "                loop.add_signal_handler(signal.SIGINT, handle_loop_signal)\n",
  "            \n",
  "            return loop.run_until_complete(generate_content_async(\n",
  "                dataset, source_field, target_field, model_name, temperature, max_tokens, prompt_template\n",
  "            ))\n",
  "        except (KeyboardInterrupt, asyncio.CancelledError):\n",
  "            print('\\n🛑 Обработка прервана пользователем.')\n",
  "            if 'processed_items' in locals() and processed_items:\n",
  "                print(f'💾 Сохраняем \x7blen(processed_items)\x7d обработанных записей...')\n",
  "                return Dataset.from_list(processed_items)\n",
  "            return dataset\n",
  "        finally:\n",
  "            # Очищаем все незавершенные задачи\n",
  "            try:\n",
  "                pending = asyncio.all_tasks(loop)\n",
  "                for task in pending:\n",
  "                    task.cancel()\n",
  "                \n",
  "                # Даем задачам возможность завершиться корректно\n",
  "                if pending:\n",
  "                    loop.run_until_complete(asyncio.gather(*pending, return_exceptions=True))\n",
  "            except Exception:\n",
  "                pass\n",
  "            \n",
  "            # Закрываем loop\n",
  "            loop.close()\n\n",
  "    # Функция для загрузки датасета\n",
  "    def load_dataset_with_config(name, streaming=False, fields=None, filters=None):\n",
  "        if debug:\n",
  "            print(f'Загрузка датасета \x7bname\x7d...')\n",
  "        else:\n",
  "            print(f'Загрузка датасета \x7bname\x7d...')\n",
  "        ds = load_dataset(name, streaming=streaming)\n",
  "        \n",
  "        # Выбираем сплит 'train', если это DatasetDict\n",
  "        if not streaming and isinstance(ds, dict):\n",
  "            if debug:\n",
  "                print(f'Выбираем сплит train для датасета')\n",
  "            ds = ds['train']\n",
  "        \n",
  "        # Применение фильтров\n",
  "        if filters:\n",
  "            if debug:\n",
  "                print(f'Применение фильтров: \x7bfilters\x7d')\n",
  "            if streaming:\n",
  "                ds = ds.filter(lambda x: all(x.get(k) is not None and eval(f\"x['\x7bk\x7d'] \x7bv['op']\x7d \x7bv['value']\x7d\") for k, v in filters.items()))\n",
  "            else:\n",
  "                for key, filter_info in filters.items():\n",
  "                    if '.' in key:\n",
  "                        print(f'Предупреждение: Вложенные фильтры пока не поддерживаются: \x7bkey\x7d')\n",
  "                        continue\n",
  "                    ds = ds.filter(lambda x: key in x and eval(f\"x['\x7bkey\x7d'] \x7bfilter_info['op']\x7d \x7bfilter_info['value']\x7d\"))\n",
  "        \n",
  "        # Выбор полей\n",
  "        if fields:\n",
  "            if debug:\n",
  "                print(f'Выбор полей: \x7bfields\x7d')\n",
  "            ds = ds.select_columns(fields)\n",
  "        \n",
  "        return ds\n\n"
]

/-- The full prelude emitted by `Compile` before traversing the statements
(compiler.go 54-416), as a function of the handler flag read at entry. -/
def preludeChunks (enable : Bool) : List String :=
  (importsList.map (fun imp => imp ++ "\n")) ++ ["\n"] ++ preludeMid
  ++ [sigintFlagChunk enable] ++ preludeHandler
  ++ [if enable then registrationPreludeChunk else disabledPreludeChunk]
  ++ preludeTail

/-- The trailer emitted by `Compile` after the statements (compiler.go 424-429). -/
def postludeChunks : List String := [
  "    # Если явное сохранение не было произведено, сохранение будет выполнено только при прерывании сигналом\n",
  "    # Автоматическое сохранение при SIGINT реализовано через signal_handler\n\n",
  "if __name__ == '__main__':\n",
  "    main()\n"]

/-- The `*GenerateStatement` arm of the FROM-block type switch (compiler.go 463). -/
def isGenStmt : Stmt → Bool
  | .generateStmt _ => true
  | _ => false

/-- The `*SaveStatement` arm of the FROM-block type switch (compiler.go 465). -/
def isSaveStmt : Stmt → Bool
  | .saveStmt _ => true
  | _ => false

/-- Chunks of a compiled `PromptStatement`: identical Go code appears in
`compileStatement` (605-634) and `compileBlockStatement` (773-802); debug
mode is off so the `if debug:` print lines are not emitted. -/
def promptChunks (ind : Nat) (pr : PromptSpec) : List String :=
  let indS := indentStr ind
  let fieldsStr :=
    if pr.pfields.length > 0 then
      "[" ++ String.intercalate ", " (formatPythonStringList pr.pfields) ++ "]"
    else "[]"
  [indS ++ "# Определение шаблона промпта " ++ pr.name ++ "\n"] ++
  (if pr.promptType = "system" then
    [indS ++ "system_prompts['" ++ pr.name ++ "'] = '" ++ pr.template ++ "'\n"]
  else
    [indS ++ "prompt_templates['" ++ pr.name ++ "'] = \x7b\n",
     indS ++ "    'template': '" ++ pr.template ++ "',\n",
     indS ++ "    'fields': " ++ fieldsStr ++ "\n",
     indS ++ "\x7d\n"])

/-- Chunks of a compiled `UsingStatement`: identical Go code in
`compileStatement` (536-543) and `compileBlockStatement` (688-695).  An
unknown type emits nothing (no `else` branch in Go). -/
def usingItemChunks (ind : Nat) (item : UsingItem) : List String :=
  let indS := indentStr ind
  if item.utype = "MODEL" then [indS ++ "model = '" ++ item.uvalue ++ "'\n"]
  else if item.utype = "KEY" then [indS ++ "api_key = '" ++ item.uvalue ++ "'\n"]
  else if item.utype = "URL" then [indS ++ "api_url = '" ++ item.uvalue ++ "'\n"]
  else []

/-- Chunks of a `GenerateStatement` inside a FROM block (compiler.go 744-765). -/
def generateBlockChunks (ind : Nat) (datasetVar : String) (g : GenSpec) : List String :=
  let indS := indentStr ind
  let modelStr := if g.model ≠ "" then "'" ++ g.model ++ "'" else "None"
  let promptStr :=
    match g.promptTemplates with
    | [] => "None"
    | p :: _ => "'" ++ p ++ "'"   -- only the first named prompt is used
  [indS ++ "# Генерация поля " ++ g.targetField ++ " на основе " ++ g.sourceField ++ "\n",
   indS ++ "# Запускаем асинхронную генерацию контента\n",
   indS ++ datasetVar ++ " = generate_content(" ++ datasetVar ++ ", '" ++ g.sourceField ++
     "', '" ++ g.targetField ++ "', " ++ modelStr ++ ", " ++ formatTemp g.temperature ++
     ", " ++ toString g.gtokens ++ ", " ++ promptStr ++ ")\n",
   indS ++ "loaded_datasets['" ++ datasetVar ++ "'] = " ++ datasetVar ++ "\n"]

mutual

/-- `compileBlockStatement` (compiler.go 667-804): a statement inside a FROM
block.  `FromStatement`, `DatasetMergeStatement`, `Block` and
`PragmaStatement` have no arm in the Go type switch and emit nothing. -/
def compileBlockStatement (ind : Nat) (datasetVar : String) : Stmt → List String
  | .fieldsStmt fields =>
    [indentStr ind ++ "fields_" ++ datasetVar ++ " = " ++ formatPythonList fields ++ "\n"]
  | .filterStmt c =>
    [indentStr ind ++ "filters_" ++ datasetVar ++ "['" ++ c.field ++ "'] = \x7b'op': '" ++
      convertOperatorToPython c.operator ++ "', 'value': " ++ formatPythonValue c.value ++ "\x7d\n"]
  | .filterBlock field conds =>
    conds.map (fun c =>
      indentStr ind ++ "filters_" ++ datasetVar ++ "['" ++ field ++ "." ++ c.field ++
        "'] = \x7b'op': '" ++ convertOperatorToPython c.operator ++ "', 'value': " ++
        formatPythonValue c.value ++ "\x7d\n")
  | .usingStmt item => usingItemChunks ind item
  | .usingBlock items => items.flatMap (usingItemChunks ind)
  | .withStmt wtype value block =>
    (if wtype = "CONCURRENCY" then
      [indentStr ind ++ "concurrency = " ++ formatWithVal value ++ "\n"]
     else if wtype = "STREAM" then [indentStr ind ++ "stream = True\n"]
     else []) ++
    (match block with
     | none => []
     | some stmts =>
       -- Go partitions the nested block into GENERATE and other statements and
       -- compiles the others first, then the GENERATEs (compiler.go 718-741);
       -- modelled as two skipping passes over the same list.
       compileBlockNonGens ind datasetVar stmts ++ compileBlockGens ind datasetVar stmts)
  | .generateStmt g => generateBlockChunks ind datasetVar g
  | .saveStmt filename =>
    [indentStr ind ++ "# Сохранение датасета в файл\n",
     indentStr ind ++ "output_file = '" ++ filename ++ "'\n",
     indentStr ind ++ "was_saved = True\n",
     indentStr ind ++ "save_current_results()\n"]
  | .promptStmt pr => promptChunks ind pr
  | _ => []

/-- First pass of a WITH block inside FROM: every non-GENERATE statement. -/
def compileBlockNonGens (ind : Nat) (datasetVar : String) : List Stmt → List String
  | [] => []
  | x :: xs =>
    (if isGenStmt x then [] else compileBlockStatement ind datasetVar x) ++
      compileBlockNonGens ind datasetVar xs

/-- Second pass of a WITH block inside FROM: the GENERATE statements. -/
def compileBlockGens (ind : Nat) (datasetVar : String) : List Stmt → List String
  | [] => []
  | x :: xs =>
    (if isGenStmt x then compileBlockStatement ind datasetVar x else []) ++
      compileBlockGens ind datasetVar xs

end

/-- The partition loop at the head of the FROM case (compiler.go 459-471):
one pass splitting the block into setup / generate / save slices. -/
def partitionFromBlock (stmts : List Stmt) : List Stmt × List Stmt × List Stmt :=
  stmts.foldl
    (fun acc stmt =>
      match stmt with
      | .generateStmt _ => (acc.1, acc.2.1 ++ [stmt], acc.2.2)
      | .saveStmt _ => (acc.1, acc.2.1, acc.2.2 ++ [stmt])
      | _ => (acc.1 ++ [stmt], acc.2.1, acc.2.2))
    ([], [], [])

/-- The dataset-variable pieces of the MERGE concatenation call
(compiler.go 583-589): each variable name, `", "` between them. -/
def mergeVarPieces : List String → List String
  | [] => []
  | [d] => ["ds_" ++ sanitizeVarName d]
  | d :: rest => ("ds_" ++ sanitizeVarName d) :: ", " :: mergeVarPieces rest

mutual

/-- `compileStatement` (compiler.go 435-664): one top-level statement,
returning its emitted chunks and the updated compiler state. -/
def compileStatement (c : CState) (ind : Nat) : Stmt → List String × CState
  | .fromStmt dataset block =>
    let dv := datasetVarName dataset
    let c1 : CState := { c with datasets := mapInsert dv c.datasets }
    let parts := partitionFromBlock (block.getD [])
    let setupInstructions := parts.1
    let generateStatements := parts.2.1
    let saveStatements := parts.2.2
    let indS := indentStr ind
    let chunks :=
      [indS ++ "# Загрузка датасета " ++ dataset ++ "\n",
       indS ++ "fields_" ++ dv ++ " = []\n",
       indS ++ "filters_" ++ dv ++ " = \x7b\x7d\n"] ++
      setupInstructions.flatMap (compileBlockStatement ind dv) ++
      [indS ++ "# Загружаем датасет с настроенными параметрами\n",
       indS ++ dv ++ " = load_dataset_with_config('" ++ dataset ++
         "', streaming=stream, fields=fields_" ++ dv ++ ", filters=filters_" ++ dv ++ ")\n",
       indS ++ "loaded_datasets['" ++ dv ++ "'] = " ++ dv ++ "\n"] ++
      (if generateStatements.length > 0 then
        (indS ++ "# Генерация новых полей в датасете\n") ::
          generateStatements.flatMap (compileBlockStatement ind dv)
       else []) ++
      (if saveStatements.length > 0 then
        (indS ++ "# Сохранение результатов\n") ::
          saveStatements.flatMap (compileBlockStatement ind dv)
       else [])
    (chunks, c1)
  | .withStmt wtype value block =>
    let indS := indentStr ind
    let head :=
      if wtype = "CONCURRENCY" then [indS ++ "concurrency = " ++ formatWithVal value ++ "\n"]
      else if wtype = "STREAM" then [indS ++ "stream = True\n"]
      else []
    (match block with
     | none => (head, c)
     | some stmts =>
       let res := compileStatements c ind stmts
       (head ++ res.1, res.2))
  | .pragmaStmt ptype value =>
    let indS := indentStr ind
    if ptype = "AUTOSAVE" then
      ([indS ++ "# Директива PRAGMA AUTOSAVE: включаем автосохранение при SIGINT\n",
        indS ++ "# Регистрируем обработчик сигнала\n",
        indS ++ "sigint_handler_registered = True  # Устанавливаем флаг регистрации обработчика SIGINT\n",
        indS ++ "signal.signal(signal.SIGINT, signal_handler)\n"],
       { c with enableSigIntHandler := true })
    else if ptype = "CONCURRENCY" then
      let concurrencyValue : Int :=
        match value with
        | .int n => n
        | _ => 4    -- Go type-assertion fallback
      ([indS ++ "# Директива PRAGMA CONCURRENCY: устанавливаем глобальную конкурентность\n",
        indS ++ "concurrency = " ++ toString concurrencyValue ++ "\n"], c)
    else ([], c)
  | .fieldsStmt fields =>
    ([indentStr ind ++ "fields = " ++ formatPythonList fields ++ "\n"], c)
  | .usingStmt item => (usingItemChunks ind item, c)
  | .usingBlock items => (items.flatMap (usingItemChunks ind), c)
  | .filterStmt cond =>
    ([indentStr ind ++ "filters['" ++ cond.field ++ "'] = \x7b'op': '" ++
       convertOperatorToPython cond.operator ++ "', 'value': " ++
       formatPythonValue cond.value ++ "\x7d\n"], c)
  | .filterBlock field conds =>
    (conds.map (fun cnd =>
      indentStr ind ++ "filters['" ++ field ++ "." ++ cnd.field ++ "'] = \x7b'op': '" ++
        convertOperatorToPython cnd.operator ++ "', 'value': " ++
        formatPythonValue cnd.value ++ "\x7d\n"), c)
  | .blockStmt stmts => compileStatements c ind stmts
  | .mergeStmt datasets =>
    let indS := indentStr ind
    let mergedVar := "merged_ds_" ++ toString (c.datasets.length + 1)
    let c1 : CState := { c with datasets := mapInsert mergedVar c.datasets }
    ([indS ++ "# Объединение датасетов\n",
      indS ++ mergedVar ++ " = concatenate_datasets(["] ++
     mergeVarPieces datasets ++
     ["])\n",
      indS ++ "loaded_datasets['" ++ mergedVar ++ "'] = " ++ mergedVar ++ "\n"], c1)
  | .saveStmt filename =>
    let indS := indentStr ind
    ([indS ++ "# Сохранение в файл\n",
      indS ++ "output_file = '" ++ filename ++ "'\n",
      indS ++ "was_saved = True\n",
      indS ++ "# Сохраняем датасет\n",
      indS ++ "save_current_results()\n"], c)
  | .generateStmt g =>
    let indS := indentStr ind
    let modelStr := if g.model ≠ "" then "'" ++ g.model ++ "'" else "None"
    let promptStr :=
      match g.promptTemplates with
      | [] => "None"
      | p :: _ => "'" ++ p ++ "'"
    ([indS ++ "# Генерация поля " ++ g.targetField ++ " на основе " ++ g.sourceField ++ "\n",
      indS ++ "# Выбираем последний загруженный датасет\n",
      indS ++ "last_dataset_name = list(loaded_datasets.keys())[-1]\n",
      indS ++ "last_dataset = loaded_datasets[last_dataset_name]\n",
      indS ++ "# Запускаем асинхронную генерацию контента\n",
      indS ++ "last_dataset = generate_content(last_dataset, '" ++ g.sourceField ++ "', '" ++
        g.targetField ++ "', " ++ modelStr ++ ", " ++ formatTemp g.temperature ++ ", " ++
        toString g.gtokens ++ ", " ++ promptStr ++ ")\n",
      indS ++ "loaded_datasets[last_dataset_name] = last_dataset\n"], c)
  | .promptStmt pr => (promptChunks ind pr, c)

/-- The statement loop of `Compile` (compiler.go 419-421), threading the
compiler state left to right. -/
def compileStatements (c : CState) (ind : Nat) : List Stmt → List String × CState
  | [] => ([], c)
  | x :: xs =>
    let r1 := compileStatement c ind x
    let r2 := compileStatements r1.2 ind xs
    (r1.1 ++ r2.1, r2.2)

end

/-- The chunk sequence written by `Compiler.Compile` (compiler.go 51-432):
prelude (reading the handler flag at entry), per-statement code at indent 1,
trailer.  Returns the final compiler state alongside. -/
def CompileChunks (c : CState) (p : List Stmt) : List String × CState :=
  let res := compileStatements c 1 p
  (preludeChunks c.enableSigIntHandler ++ res.1 ++ postludeChunks, res.2)

/-- `Compiler.Compile`: the program text (concatenation of every string
written to the builder) and the compiler state it leaves behind. -/
def Compile (c : CState) (p : List Stmt) : String × CState :=
  let res := CompileChunks c p
  (String.join res.1, res.2)

/-! ## Executor (compiler.go 866-1045)

`Executor.Execute` spawns the child process, streams its stdout/stderr to
the parent's own streams, and classifies the result of `cmd.Wait()`
(compiler.go 1021-1032).  The I/O and process plumbing is outside a shallow
embedding; the claim-relevant logic is the classification of the child's
wait outcome, modelled below.  The child's stderr is drained line-by-line to
the parent's stderr by a goroutine (997-1002); it never flows into the
returned error. -/

/-- A Unix signal as seen through `syscall.WaitStatus.Signal()`. -/
inductive UnixSignal where
  | SIGINT
  | SIGTERM
  | other (n : Nat)
deriving Repr, DecidableEq

/-- Go's `(*exec.ExitError).Error()` text. -/
def signalName : UnixSignal → String
  | .SIGINT => "interrupt"
  | .SIGTERM => "terminated"
  | .other n => "signal " ++ toString n

/-- How the child process terminated (`syscall.WaitStatus`): normal exit
with a code, or killed by a signal. -/
inductive WaitOutcome where
  | exited (code : Nat)
  | signaled (sig : UnixSignal)
deriving Repr, DecidableEq

/-- `err.Error()` of the `*exec.ExitError` produced by `cmd.Wait()` for an
abnormal termination. -/
def exitErrText : WaitOutcome → String
  | .exited c => "exit status " ++ toString c
  | .signaled s => "signal: " ++ signalName s

/-- The `cmd.Wait()` handling of `Executor.Execute` (compiler.go 1021-1032):
`none` (nil error) for exit 0 and for termination by SIGINT/SIGTERM; the
wrapped `ExitError` text otherwise.  The captured stderr stream does not
appear: the returned error is built only from the wait status. -/
def executeWaitResult (w : WaitOutcome) : Option String :=
  match w with
  | .exited 0 => none
  | .exited c => some ("error executing Python script: " ++ exitErrText (.exited c))
  | .signaled s =>
    if s = .SIGINT ∨ s = .SIGTERM then none
    else some ("error executing Python script: " ++ exitErrText (.signaled s))

/-! ## Derived notions used by the theorems -/

/-- The inline interrupt-handler registration statement emitted by the
PRAGMA AUTOSAVE case (compiler.go 521). -/
def registrationLineChunk (ind : Nat) : String :=
  indentStr ind ++ "signal.signal(signal.SIGINT, signal_handler)\n"

mutual

/-- Whether a statement's top-level compilation can reach the PRAGMA
AUTOSAVE case: directly, or through the blocks that `compileStatement`
recurses into (WITH blocks and bare blocks; FROM blocks are compiled by
`compileBlockStatement`, which ignores pragmas). -/
def stmtHasAutosave : Stmt → Bool
  | .pragmaStmt t _ => t = "AUTOSAVE"
  | .withStmt _ _ (some b) => stmtsHaveAutosave b
  | .blockStmt b => stmtsHaveAutosave b
  | _ => false

/-- `stmtHasAutosave` over a statement list. -/
def stmtsHaveAutosave : List Stmt → Bool
  | [] => false
  | x :: xs => stmtHasAutosave x || stmtsHaveAutosave xs

end

/-- The parser's cursor discipline between an entry state and an exit state:
the cursor did not move backwards, the token array is untouched, and the
cursor still does not exceed the token count.  `PStep` composes, so it
follows for every parse function from the behaviour of `nextToken`, the
only cursor-advancing primitive (parser.go 752-758). -/
def PStep (s s' : PState) : Prop :=
  s.pos ≤ s'.pos ∧ s'.tokens = s.tokens ∧ s'.pos ≤ s'.tokens.length

/-! ## Support lemmas -/

/-- **C10.** The parser's token-access primitives are total at end of input:
with the cursor at or beyond the token count, `peekToken` returns `""`, and
`nextToken` returns `""` leaving the state (in particular the cursor)
unchanged, so statement parsers that read past the last token observe `""`
rather than failing.  (The bounds check is the guard itself; the array is
only indexed under `pos < length`.) -/
theorem parser_primitives_total_at_eof (s : PState) (h : s.tokens.length ≤ s.pos) :
    peekToken s = "" ∧ nextToken s = ("", s) := by
  constructor
  · unfold peekToken; rw [if_pos h]
  · unfold nextToken; rw [if_pos h]

/-- Witness for C10 at a concrete EOF state. -/
theorem parser_primitives_total_at_eof_witness :
    peekToken ⟨["SAVE"], 1⟩ = "" ∧ nextToken ⟨["SAVE"], 1⟩ = ("", ⟨["SAVE"], 1⟩) :=
  parser_primitives_total_at_eof ⟨["SAVE"], 1⟩ (by decide)

/-- **C4 (counterexample).** The claim asserts the error of a non-signal
nonzero exit contains the child's captured stderr text.  At the concrete
input — child exits with status 1 after printing a traceback line to stderr —
the error returned by the wait handling is exactly the wrapped exit status
and does not contain the stderr text: `Execute` streams stderr to the
parent's stderr (compiler.go 998-1002) and never stores it in the error. -/
theorem executor_error_missing_stderr :
    executeWaitResult (.exited 1) = some "error executing Python script: exit status 1" ∧
    ¬ ("ModuleNotFoundError: boom".data <:+:
        "error executing Python script: exit status 1".data) := by
  constructor
  · rfl
  · decide

/-- **C4 (amended).** For every Executor run whose child terminates due to
SIGINT or SIGTERM, the wait handling returns nil (success); a child exiting
with any other nonzero status yields an error that wraps the exit status
(the stderr text is streamed to the parent's stderr during the run, not
embedded in the returned error). -/
theorem executor_wait_classification :
    executeWaitResult (.signaled .SIGINT) = none ∧
    executeWaitResult (.signaled .SIGTERM) = none ∧
    ∀ c : Nat, 0 < c →
      executeWaitResult (.exited c) =
        some ("error executing Python script: " ++ ("exit status " ++ toString c)) := by
  refine ⟨rfl, rfl, ?_⟩
  intro c hc
  match c, hc with
  | Nat.succ n, _ => rfl

/-- Witness for C4 (amended) at exit status 1. -/
theorem executor_wait_classification_witness :
    executeWaitResult (.exited 1) =
      some ("error executing Python script: " ++ ("exit status " ++ toString 1)) :=
  executor_wait_classification.2.2 1 (by decide)

/-- **C5 (counterexample).** The claim asserts derived dataset variable
identifiers are distinct for every pair of distinct dataset names.  The
names `a-b` and `a.b` are distinct, yet both sanitize to `a_b`, so both FROM
statements derive the same identifier `ds_a_b`. -/
theorem dataset_var_collision :
    "a-b" ≠ "a.b" ∧ datasetVarName "a-b" = datasetVarName "a.b" := by
  constructor
  · decide
  · rfl

/-- **C5 (amended).** Derived dataset variable identifiers are distinct for
every pair of FROM dataset names that remain distinct after the sanitizing
replacement (`/`, `-`, `.` → `_`); names that sanitize equal (such as `a-b`
and `a.b`) collide. -/
theorem dataset_var_distinct_of_sanitized_distinct (n₁ n₂ : String)
    (h : sanitizeVarName n₁ ≠ sanitizeVarName n₂) :
    datasetVarName n₁ ≠ datasetVarName n₂ := by
  intro heq
  apply h
  have hd := congrArg String.data heq
  unfold datasetVarName at hd
  rw [String.data_append, String.data_append] at hd
  exact String.ext (List.append_cancel_left hd)

/-- Witness for C5 (amended): `a` and `b` sanitize differently, hence their
identifiers differ. -/
theorem dataset_var_distinct_of_sanitized_distinct_witness :
    datasetVarName "a" ≠ datasetVarName "b" :=
  dataset_var_distinct_of_sanitized_distinct "a" "b" (by decide)

/-- **C6.** MERGE arity and order: the single-name list form (any name
`n ≠ "]"`) fails with the ParseError whose text mentions "at least two
datasets", while `MERGE x, y` (any `x ≠ "["`, which would select the list
form) and `MERGE [x, y, z]` succeed with the given names, quote-stripped, in
the given order. -/
theorem merge_arity_and_order :
    (∀ n : String, n ≠ "]" →
      parseMergeStatement ⟨["MERGE", "[", n, "]"], 0⟩ =
        .error "at least two datasets are required for MERGE" ∧
      "at least two datasets".data <:+:
        "at least two datasets are required for MERGE".data) ∧
    (∀ x y : String, x ≠ "[" →
      parseMergeStatement ⟨["MERGE", x, ",", y], 0⟩ =
        .ok (.mergeStmt [stripQuotes x, stripQuotes y], ⟨["MERGE", x, ",", y], 4⟩)) ∧
    parseMergeStatement ⟨["MERGE", "[", "x", ",", "y", ",", "z", "]"], 0⟩ =
      .ok (.mergeStmt ["x", "y", "z"], ⟨["MERGE", "[", "x", ",", "y", ",", "z", "]"], 8⟩) := by
  refine ⟨?_, ?_, by rfl⟩
  · intro n hn
    constructor
    · simp [parseMergeStatement, bracketListLoop, nextToken, peekToken, PState.isEOF, hn]
    · decide
  · intro x y hx
    simp [parseMergeStatement, nextToken, peekToken, PState.isEOF, hx]

/-- Witness for C6 at the concrete inputs of the claim. -/
theorem merge_arity_and_order_witness :
    parseMergeStatement ⟨["MERGE", "[", "x", "]"], 0⟩ =
      .error "at least two datasets are required for MERGE" ∧
    parseMergeStatement ⟨["MERGE", "x", ",", "y"], 0⟩ =
      .ok (.mergeStmt [stripQuotes "x", stripQuotes "y"], ⟨["MERGE", "x", ",", "y"], 4⟩) :=
  ⟨(merge_arity_and_order.1 "x" (by decide)).1,
   merge_arity_and_order.2.1 "x" "y" (by decide)⟩

/-- **C7.** Standalone FILTER value typing: for any field, any of the six
operators and any value token, the parsed value is an integer exactly when
the raw token passes `strconv.Atoi`, and otherwise the quote-stripped token;
in particular `FILTER difficulty >= 8` yields the integer 8. -/
theorem filter_value_typing :
    (∀ f op v : String, isOperator op = true →
      parseFilterStatement ⟨["FILTER", f, op, v], 0⟩ =
        .ok (.filterStmt ⟨f, op,
          match goAtoi v with
          | some n => .int n
          | none => .str (stripQuotes v)⟩, ⟨["FILTER", f, op, v], 4⟩)) ∧
    parseFilterStatement ⟨["FILTER", "difficulty", ">=", "8"], 0⟩ =
      .ok (.filterStmt ⟨"difficulty", ">=", .int 8⟩,
           ⟨["FILTER", "difficulty", ">=", "8"], 4⟩) := by
  refine ⟨?_, by rfl⟩
  intro f op v hop
  have hops : op = "=" ∨ op = ">" ∨ op = "<" ∨ op = ">=" ∨ op = "<=" ∨ op = "!=" := by
    simpa [isOperator] using hop
  rcases hops with h | h | h | h | h | h <;> subst h <;>
    simp [parseFilterStatement, filterValueOf, isOperator, nextToken, peekToken, PState.isEOF]

/-- Witness for C7 at the concrete input of the claim (Scenario B). -/
theorem filter_value_typing_witness :
    parseFilterStatement ⟨["FILTER", "difficulty", ">=", "8"], 0⟩ =
      .ok (.filterStmt ⟨"difficulty", ">=",
        match goAtoi "8" with
        | some n => .int n
        | none => .str (stripQuotes "8")⟩, ⟨["FILTER", "difficulty", ">=", "8"], 4⟩) :=
  filter_value_typing.1 "difficulty" ">=" "8" (by decide)

/-- **C8.** A GENERATE statement parsed without a parameter block (the token
after the target field, if any, is not `{`) carries the defaults:
temperature 0.7 and 1024 max tokens (and no model, no prompt templates). -/
theorem generate_defaults (src tgt k : String) (rest : List String)
    (hk : k = "AS" ∨ k = "TO") (hr : rest.headD "" ≠ "\x7b") :
    parseGenerateStatement ⟨"GENERATE" :: src :: k :: tgt :: rest, 0⟩ =
      .ok (.generateStmt
        { sourceField := stripQuotes src
          targetField := stripQuotes tgt
          model := ""
          temperature := 7 / 10
          gtokens := 1024
          promptTemplates := [] },
        ⟨"GENERATE" :: src :: k :: tgt :: rest, 4⟩) := by
  rcases hk with h | h <;> subst h <;> cases rest with
  | nil => simp [parseGenerateStatement, nextToken, peekToken, PState.isEOF]
  | cons r rs =>
    have h4 : r ≠ "\x7b" := by simpa using hr
    simp [parseGenerateStatement, nextToken, peekToken, PState.isEOF, h4]

/-- Witness for C8 at a concrete four-token GENERATE statement. -/
theorem generate_defaults_witness :
    parseGenerateStatement ⟨"GENERATE" :: "question" :: "AS" :: "answer" :: [], 0⟩ =
      .ok (.generateStmt
        { sourceField := stripQuotes "question"
          targetField := stripQuotes "answer"
          model := ""
          temperature := 7 / 10
          gtokens := 1024
          promptTemplates := [] },
        ⟨"GENERATE" :: "question" :: "AS" :: "answer" :: [], 4⟩) :=
  generate_defaults "question" "answer" "AS" [] (Or.inl rfl) (by decide)

/-- The single-pass partition of a FROM block equals the three filters: the
non-GENERATE/non-SAVE statements, the GENERATE statements and the SAVE
statements, each in their original relative order. -/
theorem partitionFromBlock_eq (stmts : List Stmt) :
    partitionFromBlock stmts =
      (stmts.filter (fun s => !(isGenStmt s) && !(isSaveStmt s)),
       stmts.filter (fun s => isGenStmt s),
       stmts.filter (fun s => isSaveStmt s)) := by
  have aux : ∀ (l : List Stmt) (a b c : List Stmt),
      l.foldl
        (fun acc stmt =>
          match stmt with
          | .generateStmt _ => (acc.1, acc.2.1 ++ [stmt], acc.2.2)
          | .saveStmt _ => (acc.1, acc.2.1, acc.2.2 ++ [stmt])
          | _ => (acc.1 ++ [stmt], acc.2.1, acc.2.2))
        (a, b, c) =
      (a ++ l.filter (fun s => !(isGenStmt s) && !(isSaveStmt s)),
       b ++ l.filter (fun s => isGenStmt s),
       c ++ l.filter (fun s => isSaveStmt s)) := by
    intro l
    induction l with
    | nil => simp
    | cons x xs ih =>
      intro a b c
      cases x <;> simp [ih, isGenStmt, isSaveStmt]
  simpa using aux stmts [] [] []

/-- **C2.** Phase partitioning of a FROM block: the emitted chunk sequence is
exactly — header and per-dataset declarations; the configuration-phase code
of every non-GENERATE/non-SAVE statement in lexical order; the single
dataset-load call and registry update; then (if any) the generate-phase code
of every GENERATE statement in lexical order; then (if any) the save-phase
code of every SAVE statement in lexical order.  Hence code for every
GENERATE statement appears after the single load call and code for every
SAVE statement appears after all generate-phase code, regardless of the
statements' lexical order in the source block. -/
theorem from_block_phase_partition (c : CState) (ind : Nat) (ds : String) (blk : List Stmt) :
    (compileStatement c ind (.fromStmt ds (some blk))).1 =
      [indentStr ind ++ "# Загрузка датасета " ++ ds ++ "\n",
       indentStr ind ++ "fields_" ++ datasetVarName ds ++ " = []\n",
       indentStr ind ++ "filters_" ++ datasetVarName ds ++ " = \x7b\x7d\n"] ++
      (blk.filter (fun s => !(isGenStmt s) && !(isSaveStmt s))).flatMap
        (compileBlockStatement ind (datasetVarName ds)) ++
      [indentStr ind ++ "# Загружаем датасет с настроенными параметрами\n",
       indentStr ind ++ datasetVarName ds ++ " = load_dataset_with_config('" ++ ds ++
         "', streaming=stream, fields=fields_" ++ datasetVarName ds ++
         ", filters=filters_" ++ datasetVarName ds ++ ")\n",
       indentStr ind ++ "loaded_datasets['" ++ datasetVarName ds ++ "'] = " ++
         datasetVarName ds ++ "\n"] ++
      (if (blk.filter (fun s => isGenStmt s)).isEmpty then [] else
        (indentStr ind ++ "# Генерация новых полей в датасете\n") ::
          (blk.filter (fun s => isGenStmt s)).flatMap
            (compileBlockStatement ind (datasetVarName ds))) ++
      (if (blk.filter (fun s => isSaveStmt s)).isEmpty then [] else
        (indentStr ind ++ "# Сохранение результатов\n") ::
          (blk.filter (fun s => isSaveStmt s)).flatMap
            (compileBlockStatement ind (datasetVarName ds))) := by
  simp only [compileStatement, Option.getD_some, partitionFromBlock_eq, datasetVarName]
  rcases hg : blk.filter (fun s => isGenStmt s) with _ | ⟨g, gs⟩ <;>
    rcases hs : blk.filter (fun s => isSaveStmt s) with _ | ⟨sv, svs⟩ <;>
      simp [hg, hs]

theorem string_append_assoc (a b c : String) : (a ++ b) ++ c = a ++ (b ++ c) :=
  String.ext (by simp)

theorem append_left_ne_of_take2 (p a b : String)
    (h : a.data.take 2 ≠ b.data.take 2) : p ++ a ≠ p ++ b := by
  intro he
  apply h
  have hd := congrArg String.data he
  rw [String.data_append, String.data_append] at hd
  rw [List.append_cancel_left hd]

theorem take2_append_left (l rest : String) (hl : 2 ≤ l.data.length) :
    (l ++ rest).data.take 2 = l.data.take 2 := by
  rw [String.data_append, List.take_append_of_le_length hl]

theorem string_ne_of_take2 (a b : String) (h : a.data.take 2 ≠ b.data.take 2) : a ≠ b :=
  fun he => h (by rw [he])

/-- A chunk `indentStr 1 ++ t` is not the registration line when `t` starts
with two characters other than `si`. -/
theorem chunk_ne_reg (t : String)
    (ht : t.data.take 2 ≠ "signal.signal(signal.SIGINT, signal_handler)\n".data.take 2) :
    indentStr 1 ++ t ≠ registrationLineChunk 1 := by
  unfold registrationLineChunk
  exact append_left_ne_of_take2 _ _ _ ht

/-! The next lemmas show no chunk emitted for any statement other than
PRAGMA AUTOSAVE equals the registration line `    signal.signal(...)`:
every emitted chunk differs from it within its leading literal characters
(`rcases` refutes each resulting string equation by character mismatch). -/

theorem reg_not_in_usingItemChunks (item : UsingItem) :
    registrationLineChunk 1 ∉ usingItemChunks 1 item := by
  intro h
  unfold usingItemChunks at h
  split_ifs at h <;>
    simp only [List.mem_singleton, List.not_mem_nil] at h
  all_goals (repeat' rcases h with h | h)

theorem reg_not_in_promptChunks (pr : PromptSpec) :
    registrationLineChunk 1 ∉ promptChunks 1 pr := by
  intro h
  unfold promptChunks at h
  split_ifs at h <;>
    simp only [List.cons_append, List.nil_append, List.mem_cons, List.not_mem_nil,
      or_false] at h
  all_goals (repeat' rcases h with h | h)

theorem reg_not_in_generateBlockChunks (x : String) (g : GenSpec) :
    registrationLineChunk 1 ∉ generateBlockChunks 1 ("ds_" ++ x) g := by
  intro h
  unfold generateBlockChunks at h
  simp only [List.mem_cons, List.not_mem_nil, or_false] at h
  rcases h with h | h | h | h <;>
  · try simp only [string_append_assoc] at h
    exact chunk_ne_reg _
      (by first | decide | (rw [take2_append_left _ _ (by decide)]; decide)) h.symm


theorem reg_not_in_mergeVarPieces (l : List String) :
    registrationLineChunk 1 ∉ mergeVarPieces l := by
  induction l with
  | nil => simp [mergeVarPieces]
  | cons d rest ih =>
    cases rest with
    | nil =>
      intro h
      simp only [mergeVarPieces, List.mem_singleton] at h
      (repeat' rcases h with h | h)
    | cons e tl =>
      intro h
      simp only [mergeVarPieces, List.mem_cons] at h
      rcases h with h | h | h
      · (repeat' rcases h with h | h)
      · exact absurd h (by decide)
      · exact ih (by simpa [mergeVarPieces] using h)

theorem mem_compileBlockNonGens {ch : String} {ind : Nat} {dv : String} {l : List Stmt}
    (h : ch ∈ compileBlockNonGens ind dv l) :
    ∃ y ∈ l, ch ∈ compileBlockStatement ind dv y := by
  induction l with
  | nil => simp [compileBlockNonGens] at h
  | cons x xs ih =>
    simp only [compileBlockNonGens, List.mem_append] at h
    rcases h with h1 | h2
    · by_cases hg : isGenStmt x = true
      · rw [if_pos hg] at h1; simp at h1
      · rw [if_neg hg] at h1; exact ⟨x, List.mem_cons_self _ _, h1⟩
    · obtain ⟨y, hy, hm⟩ := ih h2
      exact ⟨y, List.mem_cons_of_mem _ hy, hm⟩

theorem mem_compileBlockGens {ch : String} {ind : Nat} {dv : String} {l : List Stmt}
    (h : ch ∈ compileBlockGens ind dv l) :
    ∃ y ∈ l, ch ∈ compileBlockStatement ind dv y := by
  induction l with
  | nil => simp [compileBlockGens] at h
  | cons x xs ih =>
    simp only [compileBlockGens, List.mem_append] at h
    rcases h with h1 | h2
    · by_cases hg : isGenStmt x = true
      · rw [if_pos hg] at h1; exact ⟨x, List.mem_cons_self _ _, h1⟩
      · rw [if_neg hg] at h1; simp at h1
    · obtain ⟨y, hy, hm⟩ := ih h2
      exact ⟨y, List.mem_cons_of_mem _ hy, hm⟩

/-- No statement compiled inside a FROM block ever emits the registration
line: `compileBlockStatement` has no PragmaStatement arm. -/
theorem reg_not_in_compileBlockStatement (s : Stmt) (x : String) :
    registrationLineChunk 1 ∉ compileBlockStatement 1 ("ds_" ++ x) s := by
  have main : ∀ (n : Nat) (s : Stmt), sizeOf s ≤ n → ∀ (x : String),
      registrationLineChunk 1 ∉ compileBlockStatement 1 ("ds_" ++ x) s := by
    intro n
    induction n with
    | zero =>
      intro s hs
      cases s <;> simp at hs
    | succ n ih =>
      intro s hs x h
      cases s with
      | fieldsStmt fields =>
        simp only [compileBlockStatement, List.mem_singleton] at h
        (repeat' rcases h with h | h)
      | filterStmt cnd =>
        simp only [compileBlockStatement, List.mem_singleton] at h
        (repeat' rcases h with h | h)
      | filterBlock field conds =>
        simp only [compileBlockStatement, List.mem_map] at h
        obtain ⟨cnd, _, hm⟩ := h
        (repeat' rcases hm with hm | hm)
      | usingStmt item => exact reg_not_in_usingItemChunks item h
      | usingBlock items =>
        simp only [compileBlockStatement, List.mem_flatMap] at h
        obtain ⟨item, _, hm⟩ := h
        exact reg_not_in_usingItemChunks item hm
      | withStmt t v ob =>
        cases ob with
        | none =>
          simp only [compileBlockStatement, List.append_nil] at h
          split_ifs at h <;>
            simp only [List.mem_singleton, List.not_mem_nil] at h
          all_goals (repeat' rcases h with h | h)
        | some b =>
          simp only [compileBlockStatement] at h
          rcases List.mem_append.mp h with h1 | h2
          · split_ifs at h1 <;>
              simp only [List.mem_singleton, List.not_mem_nil] at h1
            all_goals (repeat' rcases h1 with h1 | h1)
          · have hb : ∀ y ∈ b, sizeOf y ≤ n := by
              intro y hy
              have h3 := List.sizeOf_lt_of_mem hy
              have h4 : sizeOf (Stmt.withStmt t v (some b)) = 1 + sizeOf t + sizeOf v +
                  (1 + sizeOf b) := by simp
              omega
            rcases List.mem_append.mp h2 with h3 | h3
            · obtain ⟨y, hy, hm⟩ := mem_compileBlockNonGens h3
              exact ih y (hb y hy) x hm
            · obtain ⟨y, hy, hm⟩ := mem_compileBlockGens h3
              exact ih y (hb y hy) x hm
      | generateStmt g => exact reg_not_in_generateBlockChunks x g h
      | saveStmt filename =>
        simp only [compileBlockStatement, List.mem_cons, List.not_mem_nil, or_false] at h
        (repeat' rcases h with h | h)
      | promptStmt pr => exact reg_not_in_promptChunks pr h
      | fromStmt ds ob => simp [compileBlockStatement] at h
      | blockStmt stmts => simp [compileBlockStatement] at h
      | mergeStmt datasets => simp [compileBlockStatement] at h
      | pragmaStmt t v => simp [compileBlockStatement] at h
  exact main (sizeOf s) s (Nat.le_refl _) x

theorem mem_compileStatements {ch : String} {ind : Nat} :
    ∀ {l : List Stmt} {c : CState}, ch ∈ (compileStatements c ind l).1 →
      ∃ y ∈ l, ∃ c', ch ∈ (compileStatement c' ind y).1 := by
  intro l
  induction l with
  | nil => intro c h; simp [compileStatements] at h
  | cons x xs ih =>
    intro c h
    simp only [compileStatements, List.mem_append] at h
    rcases h with h1 | h2
    · exact ⟨x, List.mem_cons_self _ _, c, h1⟩
    · obtain ⟨y, hy, c', hm⟩ := ih h2
      exact ⟨y, List.mem_cons_of_mem _ hy, c', hm⟩

theorem stmtsHaveAutosave_false {l : List Stmt} (h : stmtsHaveAutosave l = false) :
    ∀ y ∈ l, stmtHasAutosave y = false := by
  induction l with
  | nil => simp
  | cons x xs ih =>
    simp only [stmtsHaveAutosave, Bool.or_eq_false_iff] at h
    intro y hy
    rcases List.mem_cons.mp hy with rfl | hy'
    · exact h.1
    · exact ih h.2 y hy'

/-- A top-level statement that does not contain a PRAGMA AUTOSAVE (directly
or through the blocks `compileStatement` recurses into) never emits the
registration line. -/
theorem reg_not_in_compileStatement (c : CState) (s : Stmt)
    (hs : stmtHasAutosave s = false) :
    registrationLineChunk 1 ∉ (compileStatement c 1 s).1 := by
  have main : ∀ (n : Nat) (s : Stmt), sizeOf s ≤ n → ∀ (c : CState),
      stmtHasAutosave s = false → registrationLineChunk 1 ∉ (compileStatement c 1 s).1 := by
    intro n
    induction n with
    | zero =>
      intro s hsz
      cases s <;> simp at hsz
    | succ n ih =>
      intro s hsz c hsa h
      cases s with
      | fromStmt ds ob =>
        simp only [compileStatement] at h
        rcases List.mem_append.mp h with h | hE
        · rcases List.mem_append.mp h with h | hD
          · rcases List.mem_append.mp h with h | hC
            · rcases List.mem_append.mp h with hA | hB
              · simp only [List.mem_cons, List.not_mem_nil, or_false] at hA
                (repeat' rcases hA with hA | hA)
              · obtain ⟨y, _, hm⟩ := List.mem_flatMap.mp hB
                exact reg_not_in_compileBlockStatement y (sanitizeVarName ds) hm
            · simp only [List.mem_cons, List.not_mem_nil, or_false] at hC
              (repeat' rcases hC with hC | hC)
          · split_ifs at hD
            case _ =>
              rcases List.mem_cons.mp hD with hD | hD
              · (repeat' rcases hD with hD | hD)
              · obtain ⟨y, _, hm⟩ := List.mem_flatMap.mp hD
                exact reg_not_in_compileBlockStatement y (sanitizeVarName ds) hm
            case _ => simp at hD
        · split_ifs at hE
          case _ =>
            rcases List.mem_cons.mp hE with hE | hE
            · (repeat' rcases hE with hE | hE)
            · obtain ⟨y, _, hm⟩ := List.mem_flatMap.mp hE
              exact reg_not_in_compileBlockStatement y (sanitizeVarName ds) hm
          case _ => simp at hE
      | withStmt t v ob =>
        cases ob with
        | none =>
          simp only [compileStatement] at h
          split_ifs at h <;>
            simp only [List.mem_singleton, List.not_mem_nil] at h
          all_goals (repeat' rcases h with h | h)
        | some b =>
          have hsb : stmtsHaveAutosave b = false := by
            simpa [stmtHasAutosave] using hsa
          have hb : ∀ y ∈ b, sizeOf y ≤ n := by
            intro y hy
            have h3 := List.sizeOf_lt_of_mem hy
            have h4 : sizeOf (Stmt.withStmt t v (some b)) = 1 + sizeOf t + sizeOf v +
                (1 + sizeOf b) := by simp
            omega
          simp only [compileStatement] at h
          rcases List.mem_append.mp h with h1 | h2
          · split_ifs at h1 <;>
              simp only [List.mem_singleton, List.not_mem_nil] at h1
            all_goals (repeat' rcases h1 with h1 | h1)
          · obtain ⟨y, hy, c', hm⟩ := mem_compileStatements h2
            exact ih y (hb y hy) c' (stmtsHaveAutosave_false hsb y hy) hm
      | blockStmt b =>
        have hsb : stmtsHaveAutosave b = false := by
          simpa [stmtHasAutosave] using hsa
        have hb : ∀ y ∈ b, sizeOf y ≤ n := by
          intro y hy
          have h3 := List.sizeOf_lt_of_mem hy
          have h4 : sizeOf (Stmt.blockStmt b) = 1 + sizeOf b := by simp
          omega
        simp only [compileStatement] at h
        obtain ⟨y, hy, c', hm⟩ := mem_compileStatements h
        exact ih y (hb y hy) c' (stmtsHaveAutosave_false hsb y hy) hm
      | pragmaStmt t v =>
        have ht : ¬ t = "AUTOSAVE" := by simpa [stmtHasAutosave] using hsa
        simp only [compileStatement, if_neg ht] at h
        split_ifs at h <;>
          simp only [List.mem_cons, List.not_mem_nil, or_false] at h
        all_goals (repeat' rcases h with h | h)
      | fieldsStmt fields =>
        simp only [compileStatement, List.mem_singleton] at h
        (repeat' rcases h with h | h)
      | usingStmt item => exact reg_not_in_usingItemChunks item h
      | usingBlock items =>
        simp only [compileStatement, List.mem_flatMap] at h
        obtain ⟨item, _, hm⟩ := h
        exact reg_not_in_usingItemChunks item hm
      | filterStmt cnd =>
        simp only [compileStatement, List.mem_singleton] at h
        (repeat' rcases h with h | h)
      | filterBlock field conds =>
        simp only [compileStatement, List.mem_map] at h
        obtain ⟨cnd, _, hm⟩ := h
        (repeat' rcases hm with hm | hm)
      | mergeStmt datasets =>
        simp only [compileStatement, List.cons_append, List.nil_append, List.mem_cons,
          List.mem_append] at h
        rcases h with h | h | h
        · (repeat' rcases h with h | h)
        · (repeat' rcases h with h | h)
        · rcases h with h | h
          · exact reg_not_in_mergeVarPieces datasets h
          · rcases h with h | h
            · exact absurd h (by decide)
            · (repeat' rcases h with h | h)
      | saveStmt filename =>
        simp only [compileStatement, List.mem_cons, List.not_mem_nil, or_false] at h
        (repeat' rcases h with h | h)
      | generateStmt g =>
        simp only [compileStatement, List.mem_cons, List.not_mem_nil, or_false] at h
        rcases h with h | h | h | h | h | h | h <;>
        · try simp only [string_append_assoc] at h
          exact chunk_ne_reg _
            (by first | decide | (rw [take2_append_left _ _ (by decide)]; decide)) h.symm
      | promptStmt pr => exact reg_not_in_promptChunks pr h
  exact main (sizeOf s) s (Nat.le_refl _) c hs

theorem compileStatements_append (c : CState) (ind : Nat) (a b : List Stmt) :
    compileStatements c ind (a ++ b) =
      ((compileStatements c ind a).1 ++
        (compileStatements (compileStatements c ind a).2 ind b).1,
       (compileStatements (compileStatements c ind a).2 ind b).2) := by
  induction a generalizing c with
  | nil => simp [compileStatements]
  | cons x xs ih => simp [compileStatements, ih]

theorem reg_not_in_compileStatements_take (p : List Stmt) (i : Nat) (c : CState)
    (hbefore : ∀ (j : Nat) (hj : j < p.length), j < i → stmtHasAutosave (p[j]) = false) :
    registrationLineChunk 1 ∉ (compileStatements c 1 (p.take i)).1 := by
  intro h
  obtain ⟨y, hy, c', hm⟩ := mem_compileStatements h
  obtain ⟨j, hj, hje⟩ := List.mem_iff_getElem.mp hy
  have hjlt : j < i ∧ j < p.length := by
    have := hj
    simp only [List.length_take, Nat.lt_min] at this
    exact this
  obtain ⟨hji, hjp⟩ := hjlt
  have hyv : y = p[j] := by
    rw [← hje]
    exact List.getElem_take _
  exact absurd hm
    (reg_not_in_compileStatement c' y (by rw [hyv]; exact hbefore j hjp hji))

set_option maxRecDepth 4000 in
/-- **C3.** For every program whose statement `i` is `PRAGMA AUTOSAVE` and in
which no earlier statement reaches a PRAGMA AUTOSAVE, compiled with a fresh
Compiler: the output text decomposes as prelude, the code of the statements
before `i`, the code of statement `i`, the code of the remaining statements,
and the trailer; the interrupt-handler registration line occurs among the
chunks of statement `i` (in place, at the pragma's position) and occurs
neither in the prelude (which instead emits the disabled-handler comment)
nor in the code of any earlier statement. -/
theorem pragma_autosave_registration_position
    (p : List Stmt) (i : Nat) (hi : i < p.length) (v : PragVal)
    (hp : p[i] = Stmt.pragmaStmt "AUTOSAVE" v)
    (hbefore : ∀ (j : Nat) (hj : j < p.length), j < i → stmtHasAutosave (p[j]) = false) :
    (Compile NewCompiler p).1 =
      String.join
        (preludeChunks false ++
         (compileStatements NewCompiler 1 (p.take i)).1 ++
         (compileStatement (compileStatements NewCompiler 1 (p.take i)).2 1 p[i]).1 ++
         (compileStatements
            (compileStatement (compileStatements NewCompiler 1 (p.take i)).2 1 p[i]).2 1
            (p.drop (i + 1))).1 ++
         postludeChunks) ∧
    registrationLineChunk 1 ∉ preludeChunks false ∧
    registrationLineChunk 1 ∉ (compileStatements NewCompiler 1 (p.take i)).1 ∧
    registrationLineChunk 1 ∈
      (compileStatement (compileStatements NewCompiler 1 (p.take i)).2 1 p[i]).1 := by
  refine ⟨?_, by decide, reg_not_in_compileStatements_take p i NewCompiler hbefore, ?_⟩
  · have hsplit : p = p.take i ++ p[i] :: p.drop (i + 1) := by
      conv_lhs => rw [← List.take_append_drop i p]
      rw [List.drop_eq_getElem_cons hi]
    conv_lhs => rw [hsplit]
    simp only [Compile, CompileChunks, compileStatements_append, compileStatements,
      NewCompiler, List.append_assoc]
  · rw [hp]
    simp [compileStatement, registrationLineChunk]

set_option maxRecDepth 4000 in
/-- Witness for C3 at the two-statement program `SAVE "o.json"; PRAGMA
AUTOSAVE` with the pragma at position 1. -/
theorem pragma_autosave_registration_position_witness :
    (Compile NewCompiler [Stmt.saveStmt "o.json",
        Stmt.pragmaStmt "AUTOSAVE" (.bool true)]).1 =
      String.join
        (preludeChunks false ++
         (compileStatements NewCompiler 1
            ([Stmt.saveStmt "o.json", Stmt.pragmaStmt "AUTOSAVE" (.bool true)].take 1)).1 ++
         (compileStatement
            (compileStatements NewCompiler 1
              ([Stmt.saveStmt "o.json", Stmt.pragmaStmt "AUTOSAVE" (.bool true)].take 1)).2 1
            ([Stmt.saveStmt "o.json", Stmt.pragmaStmt "AUTOSAVE" (.bool true)][1])).1 ++
         (compileStatements
            (compileStatement
              (compileStatements NewCompiler 1
                ([Stmt.saveStmt "o.json", Stmt.pragmaStmt "AUTOSAVE" (.bool true)].take 1)).2 1
              ([Stmt.saveStmt "o.json", Stmt.pragmaStmt "AUTOSAVE" (.bool true)][1])).2 1
            ([Stmt.saveStmt "o.json", Stmt.pragmaStmt "AUTOSAVE" (.bool true)].drop 2)).1 ++
         postludeChunks) ∧
    registrationLineChunk 1 ∉ preludeChunks false ∧
    registrationLineChunk 1 ∉
      (compileStatements NewCompiler 1
        ([Stmt.saveStmt "o.json", Stmt.pragmaStmt "AUTOSAVE" (.bool true)].take 1)).1 ∧
    registrationLineChunk 1 ∈
      (compileStatement
        (compileStatements NewCompiler 1
          ([Stmt.saveStmt "o.json", Stmt.pragmaStmt "AUTOSAVE" (.bool true)].take 1)).2 1
        ([Stmt.saveStmt "o.json", Stmt.pragmaStmt "AUTOSAVE" (.bool true)][1])).1 :=
  pragma_autosave_registration_position
    [Stmt.saveStmt "o.json", Stmt.pragmaStmt "AUTOSAVE" (.bool true)] 1 (by decide)
    (.bool true) (by rfl) (by decide)

/-! ## C9: cursor discipline.  `PStep s s'` (defined above) packages the
invariant carried through every parse function: the cursor does not move
backwards, the token array is untouched, and the cursor stays within the
token count. -/
theorem pstep_refl {s : PState} (hs : s.pos ≤ s.tokens.length) : PStep s s :=
  ⟨Nat.le_refl _, rfl, hs⟩

theorem pstep_trans {s1 s2 s3 : PState} (h1 : PStep s1 s2) (h2 : PStep s2 s3) : PStep s1 s3 :=
  ⟨Nat.le_trans h1.1 h2.1, h2.2.1.trans h1.2.1, h2.2.2⟩

theorem pstep_inv {s s' : PState} (h : PStep s s') : s'.pos ≤ s'.tokens.length := h.2.2

theorem pstep_next {s : PState} (hs : s.pos ≤ s.tokens.length) : PStep s (nextToken s).2 := by
  refine ⟨nextToken_pos_ge s, nextToken_snd_tokens s, ?_⟩
  rw [nextToken_snd_tokens]
  exact nextToken_pos_le s hs

theorem pstep_skip (c : Prop) [Decidable c] {s : PState} (hs : s.pos ≤ s.tokens.length) :
    PStep s (if c then (nextToken s).2 else s) := by
  split
  · exact pstep_next hs
  · exact pstep_refl hs

theorem bracketListLoop_ok (fuel : Nat) :
    ∀ (s : PState) (acc r : List String) (s' : PState),
      bracketListLoop fuel s acc = .ok (r, s') →
      s.pos ≤ s.tokens.length → PStep s s' := by
  induction fuel with
  | zero => intro s acc r s' h _; simp [bracketListLoop] at h
  | succ fuel ih =>
    intro s acc r s' h hs
    simp only [bracketListLoop] at h
    split at h
    · split at h
      · simp at h
      · have h1 : PStep s (nextToken s).2 := pstep_next hs
        have h2 : PStep (nextToken s).2
            (if peekToken (nextToken s).2 = "," then (nextToken (nextToken s).2).2
             else (nextToken s).2) := pstep_skip _ (pstep_inv h1)
        exact pstep_trans (pstep_trans h1 h2) (ih _ _ _ _ h (pstep_inv h2))
    · simp only [Except.ok.injEq, Prod.mk.injEq] at h
      obtain ⟨-, h2⟩ := h
      subst h2
      exact pstep_refl hs

theorem filterBlockLoop_ok (fuel : Nat) :
    ∀ (s : PState) (acc r : List FilterCond) (s' : PState),
      filterBlockLoop fuel s acc = .ok (r, s') →
      s.pos ≤ s.tokens.length → PStep s s' := by
  induction fuel with
  | zero => intro s acc r s' h _; simp [filterBlockLoop] at h
  | succ fuel ih =>
    intro s acc r s' h hs
    simp only [filterBlockLoop] at h
    split at h
    · split at h
      · simp at h
      · split at h
        · simp at h
        · split at h
          · simp at h
          · split at h
            · simp at h
            · have h1 : PStep s (nextToken s).2 := pstep_next hs
              have h2 := pstep_trans h1 (pstep_next (pstep_inv h1))
              have h3 := pstep_trans h2 (pstep_next (pstep_inv h2))
              have h4 := pstep_trans h3
                (pstep_skip (peekToken (nextToken (nextToken (nextToken s).2).2).2 = ";")
                  (pstep_inv h3))
              exact pstep_trans h4 (ih _ _ _ _ h (pstep_inv h4))
    · simp only [Except.ok.injEq, Prod.mk.injEq] at h
      obtain ⟨-, h2⟩ := h
      subst h2
      exact pstep_refl hs

theorem usingBlockLoop_ok (fuel : Nat) :
    ∀ (s : PState) (acc r : List UsingItem) (s' : PState),
      usingBlockLoop fuel s acc = .ok (r, s') →
      s.pos ≤ s.tokens.length → PStep s s' := by
  induction fuel with
  | zero => intro s acc r s' h _; simp [usingBlockLoop] at h
  | succ fuel ih =>
    intro s acc r s' h hs
    simp only [usingBlockLoop] at h
    split at h
    · split at h
      · simp at h
      · split at h
        · simp at h
        · have h1 : PStep s (nextToken s).2 := pstep_next hs
          have h2 := pstep_trans h1 (pstep_next (pstep_inv h1))
          exact pstep_trans h2 (ih _ _ _ _ h (pstep_inv h2))
    · simp only [Except.ok.injEq, Prod.mk.injEq] at h
      obtain ⟨-, h2⟩ := h
      subst h2
      exact pstep_refl hs

theorem generateParamsLoop_ok (fuel : Nat) :
    ∀ (s : PState) (g r : GenSpec) (s' : PState),
      generateParamsLoop fuel s g = .ok (r, s') →
      s.pos ≤ s.tokens.length → PStep s s' := by
  induction fuel with
  | zero => intro s g r s' h _; simp [generateParamsLoop] at h
  | succ fuel ih =>
    intro s g r s' h hs
    simp only [generateParamsLoop] at h
    split at h
    · split at h
      · simp at h
      · split at h
        · simp at h
        · have h1 : PStep s (nextToken s).2 := pstep_next hs
          have h2 := pstep_trans h1 (pstep_next (pstep_inv h1))
          have h3 := pstep_trans h2
            (pstep_skip (peekToken (nextToken (nextToken s).2).2 = ";") (pstep_inv h2))
          exact pstep_trans h3 (ih _ _ _ _ h (pstep_inv h3))
    · simp only [Except.ok.injEq, Prod.mk.injEq] at h
      obtain ⟨-, h2⟩ := h
      subst h2
      exact pstep_refl hs

theorem collectTplLoop_ok (fuel : Nat) :
    ∀ (s : PState) (acc r : List String) (s' : PState),
      collectTplLoop fuel s acc = .ok (r, s') →
      s.pos ≤ s.tokens.length → PStep s s' := by
  induction fuel with
  | zero => intro s acc r s' h _; simp [collectTplLoop] at h
  | succ fuel ih =>
    intro s acc r s' h hs
    simp only [collectTplLoop] at h
    split at h
    · split at h
      · simp at h
      · have h1 : PStep s (nextToken s).2 := pstep_next hs
        exact pstep_trans h1 (ih _ _ _ _ h (pstep_inv h1))
    · simp only [Except.ok.injEq, Prod.mk.injEq] at h
      obtain ⟨-, h2⟩ := h
      subst h2
      exact pstep_refl hs

theorem parseSaveStatement_ok (s0 : PState) (st : Stmt) (s' : PState)
    (h : parseSaveStatement s0 = .ok (st, s'))
    (hs : s0.pos ≤ s0.tokens.length) : PStep s0 s' := by
  simp only [parseSaveStatement] at h
  split at h
  · simp at h
  · simp only [Except.ok.injEq, Prod.mk.injEq] at h
    obtain ⟨-, h2⟩ := h
    subst h2
    have h1 : PStep s0 (nextToken s0).2 := pstep_next hs
    exact pstep_trans h1 (pstep_next (pstep_inv h1))

theorem parseFieldsStatement_ok (s0 : PState) (st : Stmt) (s' : PState)
    (h : parseFieldsStatement s0 = .ok (st, s'))
    (hs : s0.pos ≤ s0.tokens.length) : PStep s0 s' := by
  simp only [parseFieldsStatement] at h
  have h1 : PStep s0 (nextToken s0).2 := pstep_next hs
  split at h
  · split at h
    · simp at h
    · rename_i fields s2 heq
      simp only [Except.ok.injEq, Prod.mk.injEq] at h
      obtain ⟨-, h2⟩ := h
      subst h2
      have h2 := pstep_trans h1 (pstep_next (pstep_inv h1))
      have h3 := pstep_trans h2 (bracketListLoop_ok _ _ _ _ _ heq (pstep_inv h2))
      exact pstep_trans h3 (pstep_next (pstep_inv h3))
  · simp only [Except.ok.injEq, Prod.mk.injEq] at h
    obtain ⟨-, h2⟩ := h
    subst h2
    exact pstep_trans h1 (pstep_next (pstep_inv h1))

theorem parsePragmaStatement_ok (s0 : PState) (st : Stmt) (s' : PState)
    (h : parsePragmaStatement s0 = .ok (st, s'))
    (hs : s0.pos ≤ s0.tokens.length) : PStep s0 s' := by
  simp only [parsePragmaStatement] at h
  have h1 : PStep s0 (nextToken s0).2 := pstep_next hs
  have h2 := pstep_trans h1 (pstep_next (pstep_inv h1))
  split at h
  · simp at h
  · split at h
    · simp only [Except.ok.injEq, Prod.mk.injEq] at h
      obtain ⟨-, h2e⟩ := h
      subst h2e
      exact h2
    · split at h
      · split at h
        · simp at h
        · split at h
          · simp at h
          · simp only [Except.ok.injEq, Prod.mk.injEq] at h
            obtain ⟨-, h2e⟩ := h
            subst h2e
            exact pstep_trans h2 (pstep_next (pstep_inv h2))
      · simp at h

theorem parseMergeStatement_ok (s0 : PState) (st : Stmt) (s' : PState)
    (h : parseMergeStatement s0 = .ok (st, s'))
    (hs : s0.pos ≤ s0.tokens.length) : PStep s0 s' := by
  simp only [parseMergeStatement] at h
  repeat' split at h
  all_goals try simp at h
  rename_i fields s2 heq hlt
  obtain ⟨-, h2⟩ := h
  subst h2
  have h1 : PStep s0 (nextToken s0).2 := pstep_next hs
  have h2 := pstep_trans h1 (pstep_next (pstep_inv h1))
  split at heq
  · split at heq
    · simp at heq
    · rename_i ds s3 heq2
      simp only [Except.ok.injEq, Prod.mk.injEq] at heq
      obtain ⟨-, he⟩ := heq
      subst he
      have h3 := pstep_trans h2 (bracketListLoop_ok _ _ _ _ _ heq2 (pstep_inv h2))
      exact pstep_trans h3 (pstep_next (pstep_inv h3))
  · split at heq
    · simp only [Except.ok.injEq, Prod.mk.injEq] at heq
      obtain ⟨-, he⟩ := heq
      subst he
      have h3 := pstep_trans h2 (pstep_next (pstep_inv h2))
      exact pstep_trans h3 (pstep_next (pstep_inv h3))
    · simp at heq

theorem parseFilterStatement_ok (s0 : PState) (st : Stmt) (s' : PState)
    (h : parseFilterStatement s0 = .ok (st, s'))
    (hs : s0.pos ≤ s0.tokens.length) : PStep s0 s' := by
  simp only [parseFilterStatement] at h
  have h1 : PStep s0 (nextToken s0).2 := pstep_next hs
  have h2 := pstep_trans h1 (pstep_next (pstep_inv h1))
  split at h
  · simp at h
  · split at h
    · split at h
      · simp at h
      · rename_i conds s3 heq
        simp only [Except.ok.injEq, Prod.mk.injEq] at h
        obtain ⟨-, he⟩ := h
        subst he
        have h3 := pstep_trans h2 (pstep_next (pstep_inv h2))
        have h4 := pstep_trans h3 (filterBlockLoop_ok _ _ _ _ _ heq (pstep_inv h3))
        exact pstep_trans h4 (pstep_next (pstep_inv h4))
    · split at h
      · simp at h
      · split at h
        · simp at h
        · simp only [Except.ok.injEq, Prod.mk.injEq] at h
          obtain ⟨-, he⟩ := h
          subst he
          have h3 := pstep_trans h2 (pstep_next (pstep_inv h2))
          exact pstep_trans h3 (pstep_next (pstep_inv h3))

theorem parseUsingStatement_ok (s0 : PState) (st : Stmt) (s' : PState)
    (h : parseUsingStatement s0 = .ok (st, s'))
    (hs : s0.pos ≤ s0.tokens.length) : PStep s0 s' := by
  simp only [parseUsingStatement] at h
  have h1 : PStep s0 (nextToken s0).2 := pstep_next hs
  have h2 := pstep_trans h1 (pstep_next (pstep_inv h1))
  split at h
  · split at h
    · simp at h
    · rename_i items s2 heq
      simp only [Except.ok.injEq, Prod.mk.injEq] at h
      obtain ⟨-, he⟩ := h
      subst he
      have h3 := pstep_trans h2 (usingBlockLoop_ok _ _ _ _ _ heq (pstep_inv h2))
      exact pstep_trans h3 (pstep_next (pstep_inv h3))
  · split at h
    · simp at h
    · simp only [Except.ok.injEq, Prod.mk.injEq] at h
      obtain ⟨-, he⟩ := h
      subst he
      exact pstep_trans h2 (pstep_next (pstep_inv h2))

theorem parseGenerateStatement_ok (s0 : PState) (st : Stmt) (s' : PState)
    (h : parseGenerateStatement s0 = .ok (st, s'))
    (hs : s0.pos ≤ s0.tokens.length) : PStep s0 s' := by
  unfold parseGenerateStatement at h
  dsimp only [] at h
  have h1 : PStep s0 (nextToken s0).2 := pstep_next hs
  have h2 := pstep_trans h1 (pstep_next (pstep_inv h1))
  split at h
  · simp at h
  · split at h
    · simp at h
    · split at h
      · simp at h
      · have h3 := pstep_trans h2 (pstep_next (pstep_inv h2))
        have h4 := pstep_trans h3 (pstep_next (pstep_inv h3))
        split at h
        · split at h
          · simp at h
          · rename_i g s5 heq
            simp only [Except.ok.injEq, Prod.mk.injEq] at h
            obtain ⟨-, he⟩ := h
            subst he
            have h5 := pstep_trans h4 (pstep_next (pstep_inv h4))
            have h6 := pstep_trans h5 (generateParamsLoop_ok _ _ _ _ _ heq (pstep_inv h5))
            exact pstep_trans h6 (pstep_next (pstep_inv h6))
        · simp only [Except.ok.injEq, Prod.mk.injEq] at h
          obtain ⟨-, he⟩ := h
          subst he
          exact h4

theorem parsePromptStatement_ok (pt0 : String) (s0 : PState) (st : Stmt) (s' : PState)
    (h : parsePromptStatement pt0 s0 = .ok (st, s'))
    (hs : s0.pos ≤ s0.tokens.length) : PStep s0 s' := by
  unfold parsePromptStatement at h
  dsimp only [] at h
  have hske : PStep s0 (if peekToken s0 = "PROMPT" then (nextToken s0).2 else s0) :=
    pstep_skip _ hs
  generalize hF : (if peekToken s0 = "PROMPT" then (nextToken s0).2 else s0) = sA at h hske
  split at h
  · simp at h
  · have h1 := pstep_trans hske (pstep_next (pstep_inv hske))
    split at h
    · have h2 := pstep_trans h1 (pstep_next (pstep_inv h1))
      split at h
      · have h3 := pstep_trans h2 (pstep_next (pstep_inv h2))
        split at h
        · simp at h
        · rename_i fields s5 heqf
          have h5 : PStep s0 s5 := by
            split at heqf
            · split at heqf
              · simp at heqf
              · rename_i fs s4 heq2
                simp only [Except.ok.injEq, Prod.mk.injEq] at heqf
                obtain ⟨-, he⟩ := heqf
                subst he
                have h4 := pstep_trans h3 (pstep_next (pstep_inv h3))
                have h5 := pstep_trans h4 (bracketListLoop_ok _ _ _ _ _ heq2 (pstep_inv h4))
                exact pstep_trans h5 (pstep_next (pstep_inv h5))
            · simp only [Except.ok.injEq, Prod.mk.injEq] at heqf
              obtain ⟨-, he⟩ := heqf
              subst he
              exact pstep_trans h3 (pstep_next (pstep_inv h3))
          split at h
          · simp at h
          · split at h
            · simp at h
            · rename_i tpl s6 heqc
              simp only [Except.ok.injEq, Prod.mk.injEq] at h
              obtain ⟨-, he⟩ := h
              subst he
              have h6 := pstep_trans h5 (collectTplLoop_ok _ _ _ _ _ heqc (pstep_inv h5))
              exact pstep_trans h6 (pstep_next (pstep_inv h6))
      · split at h
        · simp at h
        · rename_i tpl s6 heqc
          simp only [Except.ok.injEq, Prod.mk.injEq] at h
          obtain ⟨-, he⟩ := h
          subst he
          have h6 := pstep_trans h2 (collectTplLoop_ok _ _ _ _ _ heqc (pstep_inv h2))
          exact pstep_trans h6 (pstep_next (pstep_inv h6))
    · split at h
      · simp at h
      · simp only [Except.ok.injEq, Prod.mk.injEq] at h
        obtain ⟨-, he⟩ := h
        subst he
        exact pstep_trans h1 (pstep_next (pstep_inv h1))

theorem parseMutual_ok : ∀ fuel : Nat,
    (∀ s a s', parseStatement fuel s = .ok (a, s') → s.pos ≤ s.tokens.length → PStep s s') ∧
    (∀ s a s', parseFromStatement fuel s = .ok (a, s') → s.pos ≤ s.tokens.length → PStep s s') ∧
    (∀ s a s', parseWithStatement fuel s = .ok (a, s') → s.pos ≤ s.tokens.length → PStep s s') ∧
    (∀ s a s', parseBlock fuel s = .ok (a, s') → s.pos ≤ s.tokens.length → PStep s s') ∧
    (∀ s acc a s', parseBlockLoop fuel s acc = .ok (a, s') → s.pos ≤ s.tokens.length →
      PStep s s') := by
  intro fuel
  induction fuel with
  | zero =>
    refine ⟨?_, ?_, ?_, ?_, ?_⟩
    · intro s a s' h _; simp [parseStatement] at h
    · intro s a s' h _; simp [parseFromStatement] at h
    · intro s a s' h _; simp [parseWithStatement] at h
    · intro s a s' h _; simp [parseBlock] at h
    · intro s acc a s' h _; simp [parseBlockLoop] at h
  | succ fuel ih =>
    obtain ⟨ihS, ihF, ihW, ihB, ihL⟩ := ih
    refine ⟨?_, ?_, ?_, ?_, ?_⟩
    · -- parseStatement: keyword dispatch
      intro s a s' h hs
      simp only [parseStatement] at h
      repeat' split at h
      all_goals try simp at h
      · exact ihF _ _ _ h hs
      · exact ihW _ _ _ h hs
      · exact parseFieldsStatement_ok _ _ _ h hs
      · exact parseUsingStatement_ok _ _ _ h hs
      · exact parseFilterStatement_ok _ _ _ h hs
      · exact parseMergeStatement_ok _ _ _ h hs
      · exact parseSaveStatement_ok _ _ _ h hs
      · exact parseGenerateStatement_ok _ _ _ h hs
      · exact parsePromptStatement_ok _ _ _ _ h hs
      · exact parsePragmaStatement_ok _ _ _ h hs
      · have h1 : PStep s (nextToken s).2 := pstep_next hs
        have h2 := pstep_trans h1 (pstep_next (pstep_inv h1))
        exact pstep_trans h2 (parsePromptStatement_ok _ _ _ _ h (pstep_inv h2))
      · have h1 : PStep s (nextToken s).2 := pstep_next hs
        have h2 := pstep_trans h1 (pstep_next (pstep_inv h1))
        exact pstep_trans h2 (parsePromptStatement_ok _ _ _ _ h (pstep_inv h2))
    · -- parseFromStatement
      intro s a s' h hs
      simp only [parseFromStatement] at h
      have h1 : PStep s (nextToken s).2 := pstep_next hs
      have h2 := pstep_trans h1 (pstep_next (pstep_inv h1))
      split at h
      · simp at h
      · split at h
        · split at h
          · simp at h
          · rename_i blk s2 heq
            simp only [Except.ok.injEq, Prod.mk.injEq] at h
            obtain ⟨-, he⟩ := h
            subst he
            exact pstep_trans h2 (ihB _ _ _ heq (pstep_inv h2))
        · simp only [Except.ok.injEq, Prod.mk.injEq] at h
          obtain ⟨-, he⟩ := h
          subst he
          exact h2
    · -- parseWithStatement
      intro s a s' h hs
      simp only [parseWithStatement] at h
      have h1 : PStep s (nextToken s).2 := pstep_next hs
      have h2 := pstep_trans h1 (pstep_next (pstep_inv h1))
      split at h
      · simp at h
      · split at h
        · simp at h
        · rename_i value s2 heqv
          have hv : PStep s s2 := by
            split at heqv
            · split at heqv
              · simp at heqv
              · split at heqv
                · simp at heqv
                · simp only [Except.ok.injEq, Prod.mk.injEq] at heqv
                  obtain ⟨-, he⟩ := heqv
                  subst he
                  exact pstep_trans h2 (pstep_next (pstep_inv h2))
            · split at heqv
              · simp only [Except.ok.injEq, Prod.mk.injEq] at heqv
                obtain ⟨-, he⟩ := heqv
                subst he
                exact h2
              · simp at heqv
          split at h
          · split at h
            · simp at h
            · rename_i blk s3 heq
              simp only [Except.ok.injEq, Prod.mk.injEq] at h
              obtain ⟨-, he⟩ := h
              subst he
              exact pstep_trans hv (ihB _ _ _ heq (pstep_inv hv))
          · simp only [Except.ok.injEq, Prod.mk.injEq] at h
            obtain ⟨-, he⟩ := h
            subst he
            exact hv
    · -- parseBlock
      intro s a s' h hs
      simp only [parseBlock] at h
      have h1 : PStep s (nextToken s).2 := pstep_next hs
      split at h
      · simp at h
      · rename_i stmts s1 heq
        simp only [Except.ok.injEq, Prod.mk.injEq] at h
        obtain ⟨-, he⟩ := h
        subst he
        have h2 := pstep_trans h1 (ihL _ _ _ _ heq (pstep_inv h1))
        exact pstep_trans h2 (pstep_next (pstep_inv h2))
    · -- parseBlockLoop
      intro s acc a s' h hs
      simp only [parseBlockLoop] at h
      split at h
      · split at h
        · simp at h
        · split at h
          · simp at h
          · rename_i stmt s1 heq
            have h1 := ihS _ _ _ heq hs
            exact pstep_trans h1 (ihL _ _ _ _ h (pstep_inv h1))
      · simp only [Except.ok.injEq, Prod.mk.injEq] at h
        obtain ⟨-, he⟩ := h
        subst he
        exact pstep_refl hs

theorem parseProgramLoop_ok (fuel : Nat) :
    ∀ (s : PState) (acc prog : List Stmt) (s' : PState),
      parseProgramLoop fuel s acc = .ok (prog, s') →
      s.pos ≤ s.tokens.length →
      s'.tokens = s.tokens ∧ s'.pos = s.tokens.length := by
  induction fuel with
  | zero => intro s acc prog s' h _; simp [parseProgramLoop] at h
  | succ fuel ih =>
    intro s acc prog s' h hs
    simp only [parseProgramLoop] at h
    split at h
    · rename_i heof
      simp only [Except.ok.injEq, Prod.mk.injEq] at h
      obtain ⟨-, he⟩ := h
      subst he
      exact ⟨rfl, Nat.le_antisymm hs ((isEOF_iff s).mp heof)⟩
    · split at h
      · simp at h
      · rename_i stmt s1 heq
        have h1 := (parseMutual_ok fuel).1 _ _ _ heq hs
        have h2 := ih s1 _ prog s' h (pstep_inv h1)
        refine ⟨h2.1.trans h1.2.1, ?_⟩
        rw [h2.2, h1.2.1]

theorem parseProgram_ok (tokens : List String) (prog : List Stmt) (s' : PState)
    (h : parseProgram tokens = .ok (prog, s')) :
    s'.tokens = tokens ∧ s'.pos = tokens.length :=
  parseProgramLoop_ok _ _ _ _ _ h (Nat.zero_le _)

/-- **C9.** The parser's cursor is monotonic and bounded.  `nextToken`, the
only cursor-advancing primitive, never moves the cursor backwards and never
past the token count; consequently every successful `parseStatement` run
from an in-bounds state leaves the cursor no smaller, still within the token
count, and the token array untouched; and whenever `parseProgram` succeeds,
the final cursor equals the token count (no leftover input). -/
theorem parser_cursor_discipline :
    (∀ s : PState, s.pos ≤ (nextToken s).2.pos ∧
      (s.pos ≤ s.tokens.length → (nextToken s).2.pos ≤ s.tokens.length)) ∧
    (∀ (fuel : Nat) (s : PState) (stmt : Stmt) (s' : PState),
      parseStatement fuel s = .ok (stmt, s') → s.pos ≤ s.tokens.length →
      s.pos ≤ s'.pos ∧ s'.pos ≤ s.tokens.length ∧ s'.tokens = s.tokens) ∧
    (∀ (tokens : List String) (prog : List Stmt) (s' : PState),
      parseProgram tokens = .ok (prog, s') →
      s'.tokens = tokens ∧ s'.pos = tokens.length) := by
  refine ⟨?_, ?_, ?_⟩
  · intro s
    exact ⟨nextToken_pos_ge s, nextToken_pos_le s⟩
  · intro fuel s stmt s' h hs
    have hp := (parseMutual_ok fuel).1 s stmt s' h hs
    exact ⟨hp.1, hp.2.1 ▸ hp.2.2, hp.2.1⟩
  · exact parseProgram_ok

/-- Witness for C9: a successful `parseStatement` run on `SAVE x` moves the
cursor from 0 to 2 within the 2-token bound, and a successful `parseProgram`
run on the token sequence of `SAVE "out.json"` ends with the cursor equal to
the token count. -/
theorem parser_cursor_discipline_witness :
    ((⟨["SAVE", "x"], 0⟩ : PState).pos ≤ (⟨["SAVE", "x"], 2⟩ : PState).pos ∧
      (⟨["SAVE", "x"], 2⟩ : PState).pos ≤ (⟨["SAVE", "x"], 0⟩ : PState).tokens.length ∧
      (⟨["SAVE", "x"], 2⟩ : PState).tokens = (⟨["SAVE", "x"], 0⟩ : PState).tokens) ∧
    ((⟨["SAVE", "\"out.json\""], 2⟩ : PState).tokens = ["SAVE", "\"out.json\""] ∧
      (⟨["SAVE", "\"out.json\""], 2⟩ : PState).pos =
        (["SAVE", "\"out.json\""] : List String).length) :=
  ⟨parser_cursor_discipline.2.1 3 ⟨["SAVE", "x"], 0⟩ (.saveStmt "x") ⟨["SAVE", "x"], 2⟩
      rfl (by decide),
   parser_cursor_discipline.2.2 ["SAVE", "\"out.json\""] [.saveStmt "out.json"]
      ⟨["SAVE", "\"out.json\""], 2⟩ rfl⟩
